import Mathlib

/-!
# Resources of the Okta Terraform provider

A shallow embedding of `okta/resource_okta_app_oauth_post_logout_redirect_uri.go` and of
`okta/resource_okta_template_email.go`.
Every CRUD function takes the resource data `d` and the provider configuration `m`
and returns its Go result together with the resource data and the ordered list of
effects it performed (mutex, remote calls, log lines); for the redirect URI resource the
remote state is passed along as well.
-/

namespace Okta

/-! ## Data model -/

/-- Go `error`: `none` is `nil`, `some msg` carries the text of `err.Error()`. -/
abbrev Error := Option String

/-- The `diag.Diagnostics` of the plugin SDK, kept as the summaries of its error
diagnostics in order; `nil` is the empty list. -/
abbrev Diagnostics := List String

/-- The `diag.Errorf` call of the plugin SDK: one error diagnostic whose summary is the
formatted message. -/
def diag.Errorf (summary : String) : Diagnostics := [summary]

/-- Modelled from the spec: the SDK type `okta.OpenIdConnectApplication` is declared outside
the sources. Following the ParentObject of the data model it has an `Id`, the list-valued
field `Settings.OauthClient.PostLogoutRedirectUris`, and `rest`, standing for every other
field of the object, which this resource never reads or assigns. -/
structure OpenIdConnectApplication where
  Id : String
  PostLogoutRedirectUris : List String
  rest : String
deriving DecidableEq

/-- The result of `okta.NewOpenIdConnectApplication()` as far as this resource looks at it:
an object that has not been filled by a fetch, so its `Id` is empty. -/
def NewOpenIdConnectApplication : OpenIdConnectApplication :=
  { Id := "", PostLogoutRedirectUris := [], rest := "" }

/-- The `*schema.ResourceData` of this resource: the resource ID and the two attributes of
the schema, `app_id` and `uri`. -/
structure ResourceData where
  id : String
  app_id : String
  uri : String
deriving DecidableEq

/-- The method `d.Id()`. -/
def ResourceData.Id (d : ResourceData) : String := d.id

/-- The method `d.SetId(v)`. -/
def ResourceData.SetId (d : ResourceData) (v : String) : ResourceData := { d with id := v }

/-- The provider configuration `m` seen through the two remote calls of this resource:
`apps` is the remote store of applications by id, `getErr` the failure (other than 404)
the GET of an id answers with, `putErr` the failure the PUT of an object answers with. -/
structure Config where
  apps : String → Option OpenIdConnectApplication
  getErr : String → Error
  putErr : String → OpenIdConnectApplication → Error

/-- The post-logout redirect list the remote store holds for `appID` (empty when the
store has no such application). -/
def Config.uris (m : Config) (appID : String) : List String :=
  match m.apps appID with
  | some a => a.PostLogoutRedirectUris
  | none => []

/-- The observable steps of one operation, in program order. -/
inductive Effect where
  | Lock (key : String)
  | Unlock (key : String)
  | Fetch (appID : String)
  | Write (appID : String) (app : OpenIdConnectApplication)
  | Info (msg : String)
deriving DecidableEq

/-- What a function of the resource leaves behind: its return value, the resource data,
the remote state and the effects performed. -/
structure Outcome (ρ : Type) where
  ret : ρ
  d : ResourceData
  m : Config
  trace : List Effect

/-- The remote writes of a trace, in order: target id and object written. -/
def writes : List Effect → List (String × OpenIdConnectApplication)
  | [] => []
  | Effect.Write k a :: t => (k, a) :: writes t
  | _ :: t => writes t

/-! ## Helpers of the package that the resource calls -/

/-- Modelled from the spec: the helper `contains` is declared outside the sources; it is
the membership test `value ∈ collectionField` of the Collection Mutator, as a loop over
the slice. -/
def contains : List String → String → Bool
  | [], _ => false
  | v :: a, e => if v = e then true else contains a e

/-- Modelled from the spec: the helper `remove` is declared outside the sources; per the
Collection Mutator it returns the list unchanged when the value is absent and otherwise
removes the first occurrence. -/
def remove : List String → String → List String
  | [], _ => []
  | item :: arr, el => if item = el then arr else item :: remove arr el

/-- Modelled from the spec: the helper `fetchAppByID` is declared outside the sources. It
fills `app` from the remote store; a failing GET returns its error; an id the remote
system does not know returns no error and leaves `app` as it was passed in, which is how
the callers tell a missing application (empty `Id`) from a failure. -/
def fetchAppByID (appID : String) (m : Config) (app : OpenIdConnectApplication) :
    Error × OpenIdConnectApplication :=
  match m.getErr appID with
  | some e => (some e, app)
  | none =>
    match m.apps appID with
    | some a => (none, a)
    | none => (none, app)

/-- Modelled from the spec: the helper `updateAppByID` is declared outside the sources. It
persists the whole object under `appID`; a rejected or failed PUT returns its error and
leaves the remote store as it was. -/
def updateAppByID (appID : String) (m : Config) (app : OpenIdConnectApplication) :
    Error × Config :=
  match m.putErr appID app with
  | some e => (some e, m)
  | none => (none, { m with apps := fun k => if k = appID then some app else m.apps k })

/-! ## The resource -/

/-- The function `resourceAppOAuthPostLogoutRedirectURIRead`: it does nothing. -/
def resourceAppOAuthPostLogoutRedirectURIRead (d : ResourceData) (m : Config) :
    Outcome Diagnostics :=
  { ret := [], d := d, m := m, trace := [] }

/-- The function `appendPostLogoutRedirectURI`. The deferred unlock closes the trace of
every return path. -/
def appendPostLogoutRedirectURI (d : ResourceData) (m : Config) : Outcome Error :=
  let appID := d.app_id
  let fetched := fetchAppByID appID m NewOpenIdConnectApplication
  let app := fetched.2
  let pre := [Effect.Lock appID, Effect.Fetch appID]
  let post := [Effect.Unlock appID]
  match fetched.1 with
  | some err => { ret := some err, d := d, m := m, trace := pre ++ post }
  | none =>
    if app.Id = "" then
      { ret := some ("application with id " ++ appID ++ " does not exist"),
        d := d, m := m, trace := pre ++ post }
    else if contains app.PostLogoutRedirectUris d.Id then
      { ret := none, d := d, m := m,
        trace := pre ++ [Effect.Info ("application with appID " ++ appID ++
          " already has post logout redirect URI " ++ d.Id)] ++ post }
    else
      let uri := d.uri
      let app' := { app with PostLogoutRedirectUris := app.PostLogoutRedirectUris ++ [uri] }
      let written := updateAppByID appID m app'
      { ret := written.1, d := d, m := written.2,
        trace := pre ++ [Effect.Write appID app'] ++ post }

/-- The function `resourceAppOAuthPostLogoutRedirectURICreate`. -/
def resourceAppOAuthPostLogoutRedirectURICreate (d : ResourceData) (m : Config) :
    Outcome Diagnostics :=
  let r := appendPostLogoutRedirectURI d m
  match r.ret with
  | some err =>
    { ret := diag.Errorf ("failed to create post logout redirect URI: " ++ err),
      d := r.d, m := r.m, trace := r.trace }
  | none =>
    let rd := resourceAppOAuthPostLogoutRedirectURIRead (r.d.SetId r.d.uri) r.m
    { ret := rd.ret, d := rd.d, m := rd.m, trace := r.trace ++ rd.trace }

/-- The function `resourceAppOAuthPostLogoutRedirectURIUpdate`. -/
def resourceAppOAuthPostLogoutRedirectURIUpdate (d : ResourceData) (m : Config) :
    Outcome Diagnostics :=
  let r := appendPostLogoutRedirectURI d m
  match r.ret with
  | some err =>
    { ret := diag.Errorf ("failed to update post logout redirect URI: " ++ err),
      d := r.d, m := r.m, trace := r.trace }
  | none =>
    let rd := resourceAppOAuthPostLogoutRedirectURIRead (r.d.SetId r.d.uri) r.m
    { ret := rd.ret, d := rd.d, m := rd.m, trace := r.trace ++ rd.trace }

/-- The function `resourceAppOAuthPostLogoutRedirectURIDelete`. The deferred unlock closes
the trace of every return path. -/
def resourceAppOAuthPostLogoutRedirectURIDelete (d : ResourceData) (m : Config) :
    Outcome Diagnostics :=
  let appID := d.app_id
  let fetched := fetchAppByID appID m NewOpenIdConnectApplication
  let app := fetched.2
  let pre := [Effect.Lock appID, Effect.Fetch appID]
  let post := [Effect.Unlock appID]
  match fetched.1 with
  | some err =>
    { ret := diag.Errorf ("failed to get application: " ++ err),
      d := d, m := m, trace := pre ++ post }
  | none =>
    if app.Id = "" then
      { ret := diag.Errorf ("application with id " ++ appID ++ " does not exist"),
        d := d, m := m, trace := pre ++ post }
    else if !contains app.PostLogoutRedirectUris d.Id then
      { ret := [], d := d, m := m,
        trace := pre ++ [Effect.Info ("application with appID " ++ appID ++
          " does not have post logout redirect URI " ++ d.Id)] ++ post }
    else
      let app' := { app with
        PostLogoutRedirectUris := remove app.PostLogoutRedirectUris d.Id }
      let written := updateAppByID appID m app'
      match written.1 with
      | some err =>
        { ret := diag.Errorf ("failed to delete post logout redirect URI: " ++ err),
          d := d, m := written.2, trace := pre ++ [Effect.Write appID app'] ++ post }
      | none =>
        { ret := [], d := d, m := written.2,
          trace := pre ++ [Effect.Write appID app'] ++ post }

/-! ## Concrete remote states used by the examples -/

/-- An application `app1` holding the post-logout redirect list `L`. -/
def app1 (L : List String) : OpenIdConnectApplication :=
  { Id := "app1", PostLogoutRedirectUris := L, rest := "oidc_client" }

/-- A remote system that knows exactly the application `a` and whose calls never fail. -/
def remoteOf (a : OpenIdConnectApplication) : Config :=
  { apps := fun k => if k = a.Id then some a else none,
    getErr := fun _ => none,
    putErr := fun _ _ => none }

/-- A remote system that knows no application and whose calls never fail. -/
def remoteEmpty : Config :=
  { apps := fun _ => none, getErr := fun _ => none, putErr := fun _ _ => none }

/-- A remote system whose GET fails with the error `e`. -/
def remoteGetFails (e : String) : Config :=
  { apps := fun _ => none, getErr := fun _ => some e, putErr := fun _ _ => none }

/-- A remote system that knows exactly the application `a` and whose PUT fails with the
error `e`. -/
def remotePutFails (a : OpenIdConnectApplication) (e : String) : Config :=
  { apps := fun k => if k = a.Id then some a else none,
    getErr := fun _ => none,
    putErr := fun _ _ => some e }

/-! ## Reading a trace -/

/-- Whether an effect is an operation of the mutex `oktaMutexKV`. -/
def Effect.isGuard : Effect → Bool
  | Effect.Lock _ => true
  | Effect.Unlock _ => true
  | _ => false

/-! ## Email template resource: `okta/resource_okta_template_email.go` -/

/-- One element of the `translations` set, with the three attributes of
`translationResource`. -/
structure Translation where
  language : String
  subject : String
  template : String
deriving DecidableEq

/-- Modelled from the spec: the type `sdk.EmailTranslation` is declared outside the
sources; the resource reads and writes its `Subject` and `Template`. -/
structure EmailTranslation where
  Subject : String
  Template : String
deriving DecidableEq

/-- The Go map `map[string]*sdk.EmailTranslation` as its key-value pairs, one pair per
key; the values are the structs the pointers lead to. -/
abbrev TranslationMap := List (String × EmailTranslation)

/-- The map read `trans[key]`: `none` is the nil pointer a missing key yields. -/
def mapIndex : TranslationMap → String → Option EmailTranslation
  | [], _ => none
  | (k, v) :: more, key => if k = key then some v else mapIndex more key

/-- The map assignment `trans[key] = val`: it replaces the value of a key the map has and
adds the key otherwise. -/
def mapAssign : TranslationMap → String → EmailTranslation → TranslationMap
  | [], key, val => [(key, val)]
  | (k, v) :: more, key, val =>
    if k = key then (key, val) :: more else (k, v) :: mapAssign more key val

/-- Modelled from the spec: the type `sdk.EmailTemplate` is declared outside the sources;
these are the fields the resource assigns or reads (`Type_` is the Go field `Type`). -/
structure EmailTemplate where
  Id : String
  DefaultLanguage : String
  Name : String
  Type_ : String
  Translations : TranslationMap
  Subject : String
  Template : String
deriving DecidableEq

/-- The `*schema.ResourceData` of the email template resource: the resource ID and the
attributes `default_language`, `type` and `translations`, the latter as the list
`rawTransList.List()` of the set. -/
structure TemplateEmailData where
  id : String
  default_language : String
  type : String
  translations : List Translation
deriving DecidableEq

/-- The method `d.Id()` of the email template resource data. -/
def TemplateEmailData.Id (d : TemplateEmailData) : String := d.id

/-- The method `d.SetId(v)` of the email template resource data. -/
def TemplateEmailData.SetId (d : TemplateEmailData) (v : String) : TemplateEmailData :=
  { d with id := v }

/-- The loop of `buildEmailTemplate` over `rawTransList.List()`, assigning one map entry
per element in order. -/
def buildTranslations : List Translation → TranslationMap → TranslationMap
  | [], acc => acc
  | rawTrans :: rest, acc =>
    buildTranslations rest
      (mapAssign acc rawTrans.language
        { Subject := rawTrans.subject, Template := rawTrans.template })

/-- The function `buildEmailTemplate`. The result is `none` when the function does not
return: `trans[defaultLang]` is a nil pointer and reading its `Subject` panics. -/
def buildEmailTemplate (d : TemplateEmailData) : Option EmailTemplate :=
  let trans := buildTranslations d.translations []
  let defaultLang := d.default_language
  match mapIndex trans defaultLang with
  | none => none
  | some t =>
    some { Id := "", DefaultLanguage := defaultLang, Name := "Custom", Type_ := d.type,
           Translations := trans, Subject := t.Subject, Template := t.Template }

/-- The function `flattenEmailTranslations`: one set element per key of the map. The
list stands for the resulting set, whose order carries no meaning. -/
def flattenEmailTranslations (temp : TranslationMap) : List Translation :=
  temp.map fun kv => { language := kv.1, subject := kv.2.Subject, template := kv.2.Template }

/-- Modelled from the spec: the API supplement client of the `sdk` package is declared
outside the sources. Each call is given by what it answers: the error of a create, update
or delete, and for a get the template (`none` is nil), the status code of the response
(`none` is a nil response) and the error. -/
structure EmailAPI where
  CreateEmailTemplate : EmailTemplate → Error
  GetEmailTemplate : String → Option EmailTemplate × Option Nat × Error
  UpdateEmailTemplate : String → EmailTemplate → Error
  DeleteEmailTemplate : String → Error

/-- Modelled from the spec: the helper `suppressErrorOn404` is declared outside the
sources; it drops the error of a response whose status is 404 and hands every other
error on. -/
def suppressErrorOn404 (resp : Option Nat) (err : Error) : Error :=
  if resp = some 404 then none else err

/-- The API calls of the email template resource, in program order. -/
inductive EmailCall where
  | Create (temp : EmailTemplate)
  | Get (id : String)
  | Update (id : String) (temp : EmailTemplate)
  | Delete (id : String)
deriving DecidableEq

/-- What a function of the email template resource leaves behind: the diagnostics it
returned (`none` when it panicked instead of returning), the resource data and the API
calls made. -/
structure EmailOutcome where
  ret : Option Diagnostics
  d : TemplateEmailData
  calls : List EmailCall
deriving DecidableEq

/-- The function `resourceTemplateEmailRead`. -/
def resourceTemplateEmailRead (d : TemplateEmailData) (m : EmailAPI) : EmailOutcome :=
  let got := m.GetEmailTemplate d.Id
  let calls := [EmailCall.Get d.Id]
  match suppressErrorOn404 got.2.1 got.2.2 with
  | some err =>
    { ret := some (diag.Errorf ("failed to get email template: " ++ err)),
      d := d, calls := calls }
  | none =>
    match got.1 with
    | none => { ret := some [], d := d.SetId "", calls := calls }
    | some temp =>
      if temp.Id = "default" then
        { ret := some [], d := d.SetId "", calls := calls }
      else
        { ret := some [],
          d := { d with
            translations := flattenEmailTranslations temp.Translations,
            default_language := temp.DefaultLanguage },
          calls := calls }

/-- The function `resourceTemplateEmailCreate`. -/
def resourceTemplateEmailCreate (d : TemplateEmailData) (m : EmailAPI) : EmailOutcome :=
  match buildEmailTemplate d with
  | none => { ret := none, d := d, calls := [] }
  | some temp =>
    let id := d.type
    match m.CreateEmailTemplate temp with
    | some err =>
      { ret := some (diag.Errorf ("failed to create email template: " ++ err)),
        d := d, calls := [EmailCall.Create temp] }
    | none =>
      let r := resourceTemplateEmailRead (d.SetId id) m
      { ret := r.ret, d := r.d, calls := EmailCall.Create temp :: r.calls }

/-- The function `resourceTemplateEmailUpdate`. -/
def resourceTemplateEmailUpdate (d : TemplateEmailData) (m : EmailAPI) : EmailOutcome :=
  match buildEmailTemplate d with
  | none => { ret := none, d := d, calls := [] }
  | some temp =>
    match m.UpdateEmailTemplate d.Id temp with
    | some err =>
      { ret := some (diag.Errorf ("failed to update email template: " ++ err)),
        d := d, calls := [EmailCall.Update d.Id temp] }
    | none =>
      let r := resourceTemplateEmailRead d m
      { ret := r.ret, d := r.d, calls := EmailCall.Update d.Id temp :: r.calls }

/-- The function `resourceTemplateEmailDelete`. -/
def resourceTemplateEmailDelete (d : TemplateEmailData) (m : EmailAPI) : EmailOutcome :=
  match m.DeleteEmailTemplate d.Id with
  | some err =>
    { ret := some (diag.Errorf ("failed to delete email template: " ++ err)),
      d := d, calls := [EmailCall.Delete d.Id] }
  | none => { ret := some [], d := d, calls := [EmailCall.Delete d.Id] }

/-- An API whose create, update and delete succeed and whose get finds nothing (404). -/
def apiEmpty : EmailAPI :=
  { CreateEmailTemplate := fun _ => none,
    GetEmailTemplate := fun _ => (none, some 404, some "Not found"),
    UpdateEmailTemplate := fun _ _ => none,
    DeleteEmailTemplate := fun _ => none }

/-! ## Destroy check of the sign-on policy rule test:
`okta/resource_okta_app_signon_policy_rule_test.go` -/

/-- One `*terraform.ResourceState` of the root module as the check reads it: its `Type`
(`Type_` here), `Primary.ID` and `Primary.Attributes["policy_id"]`. -/
structure ResourceState where
  Type_ : String
  ID : String
  policy_id : String
deriving DecidableEq

/-- Modelled from the spec: the API supplement client used by the test is declared outside
the sources. This is what `GetAppSignOnPolicyRule` answers: the rule (`none` is nil,
otherwise its id), the status code of the response (`none` is a nil response) and the
error. -/
structure GetRuleAnswer where
  rule : Option String
  resp : Option Nat
  err : Error
deriving DecidableEq

/-- What the destroy check leaves behind: the error it returns and the GET calls it made,
each as policy id and rule id, in order. -/
structure CheckOutcome where
  ret : Error
  queries : List (String × String)
deriving DecidableEq

/-- The function `appSignOnPolicyRuleExists`. The resources are given in the order the
loop meets them; the resource type name `appSignOnPolicyRule`, a constant declared outside
the sources, and the client are parameters. -/
def appSignOnPolicyRuleExists (appSignOnPolicyRule : String)
    (client : String → String → GetRuleAnswer) : List ResourceState → CheckOutcome
  | [] => { ret := none, queries := [] }
  | rs :: rest =>
    if rs.Type_ ≠ appSignOnPolicyRule then
      appSignOnPolicyRuleExists appSignOnPolicyRule client rest
    else
      let got := client rs.policy_id rs.ID
      let queries := [(rs.policy_id, rs.ID)]
      if got.resp = some 404 then { ret := none, queries := queries }
      else
        match got.err with
        | some err => { ret := some err, queries := queries }
        | none =>
          if got.rule ≠ none then
            { ret := some ("app sign-on policy rule still exists, ID: " ++ rs.ID ++
                ", PolicyID: " ++ rs.policy_id),
              queries := queries }
          else { ret := none, queries := queries }

/-- An API for the email template resource whose get finds the template `temp`. -/
def apiWith (temp : EmailTemplate) : EmailAPI :=
  { CreateEmailTemplate := fun _ => none,
    GetEmailTemplate := fun _ => (some temp, some 200, none),
    UpdateEmailTemplate := fun _ _ => none,
    DeleteEmailTemplate := fun _ => none }

/-! ## Facts about the helpers -/

theorem contains_iff (a : List String) (e : String) : contains a e = true ↔ e ∈ a := by
  induction a with
  | nil => simp [contains]
  | cons v a ih =>
    by_cases h : v = e
    · simp [contains, h]
    · have h' : ¬ e = v := fun h2 => h h2.symm
      simp [contains, h, h', ih]

theorem contains_eq_false_iff (a : List String) (e : String) :
    contains a e = false ↔ e ∉ a := by
  rw [← contains_iff]; cases contains a e <;> simp

theorem remove_eq_erase (arr : List String) (el : String) : remove arr el = arr.erase el := by
  induction arr with
  | nil => rfl
  | cons item arr ih =>
    by_cases h : item = el
    · subst h; simp [remove]
    · have hb : ¬ (item == el) = true := by simpa using h
      simp [remove, h, ih, List.erase_cons_tail hb]

/-- What `appendPostLogoutRedirectURI` does once the fetch has found an application: it
skips the write when the resource ID is listed and otherwise writes the list extended by
the configured uri. -/
theorem appendPostLogoutRedirectURI_found (d : ResourceData) (m : Config)
    (a : OpenIdConnectApplication)
    (hf : fetchAppByID d.app_id m NewOpenIdConnectApplication = (none, a))
    (hid : a.Id ≠ "") :
    appendPostLogoutRedirectURI d m =
      if contains a.PostLogoutRedirectUris d.Id then
        { ret := none, d := d, m := m,
          trace := [Effect.Lock d.app_id, Effect.Fetch d.app_id,
            Effect.Info ("application with appID " ++ d.app_id ++
              " already has post logout redirect URI " ++ d.Id),
            Effect.Unlock d.app_id] }
      else
        { ret := (updateAppByID d.app_id m
            { a with PostLogoutRedirectUris := a.PostLogoutRedirectUris ++ [d.uri] }).1,
          d := d,
          m := (updateAppByID d.app_id m
            { a with PostLogoutRedirectUris := a.PostLogoutRedirectUris ++ [d.uri] }).2,
          trace := [Effect.Lock d.app_id, Effect.Fetch d.app_id,
            Effect.Write d.app_id
              { a with PostLogoutRedirectUris := a.PostLogoutRedirectUris ++ [d.uri] },
            Effect.Unlock d.app_id] } := by
  unfold appendPostLogoutRedirectURI
  simp only [hf, hid, if_false]
  split <;> simp

/-- What `appendPostLogoutRedirectURI` does when the fetch finds no application: it
returns the does-not-exist error and touches nothing. -/
theorem appendPostLogoutRedirectURI_missing (d : ResourceData) (m : Config)
    (herr : (fetchAppByID d.app_id m NewOpenIdConnectApplication).1 = none)
    (hid : (fetchAppByID d.app_id m NewOpenIdConnectApplication).2.Id = "") :
    appendPostLogoutRedirectURI d m =
      { ret := some ("application with id " ++ d.app_id ++ " does not exist"),
        d := d, m := m,
        trace := [Effect.Lock d.app_id, Effect.Fetch d.app_id, Effect.Unlock d.app_id] } := by
  unfold appendPostLogoutRedirectURI
  simp [herr, hid]

/-! ## Create -/

/-- C2: evaluation of Create where the claim fails. The application exists with the list
`["https://a/logout"]` and a new handle is created for the same uri. The claim asks for no
write and an unchanged list; the code tests the empty resource ID, which is not listed,
and writes the list with the uri appended a second time. -/
theorem create_present_uri_written_again :
    "https://a/logout" ∈ (app1 ["https://a/logout"]).PostLogoutRedirectUris ∧
    (resourceAppOAuthPostLogoutRedirectURICreate ⟨"", "app1", "https://a/logout"⟩
      (remoteOf (app1 ["https://a/logout"]))).ret = [] ∧
    writes (resourceAppOAuthPostLogoutRedirectURICreate ⟨"", "app1", "https://a/logout"⟩
      (remoteOf (app1 ["https://a/logout"]))).trace =
      [("app1", app1 ["https://a/logout", "https://a/logout"])] ∧
    (resourceAppOAuthPostLogoutRedirectURICreate ⟨"", "app1", "https://a/logout"⟩
      (remoteOf (app1 ["https://a/logout"]))).m.uris "app1" =
      ["https://a/logout", "https://a/logout"] := by
  decide

/-- C4: when the fetch succeeds but finds no application (the fetched object has an empty
`Id`), Create returns an error diagnostic, invokes no remote write and leaves the resource
ID as it was, for every handle. -/
theorem create_parent_missing_fails (d : ResourceData) (m : Config)
    (herr : (fetchAppByID d.app_id m NewOpenIdConnectApplication).1 = none)
    (hid : (fetchAppByID d.app_id m NewOpenIdConnectApplication).2.Id = "") :
    (resourceAppOAuthPostLogoutRedirectURICreate d m).ret =
      diag.Errorf ("failed to create post logout redirect URI: " ++
        ("application with id " ++ d.app_id ++ " does not exist")) ∧
    (resourceAppOAuthPostLogoutRedirectURICreate d m).ret ≠ [] ∧
    writes (resourceAppOAuthPostLogoutRedirectURICreate d m).trace = [] ∧
    (resourceAppOAuthPostLogoutRedirectURICreate d m).d.Id = d.Id := by
  unfold resourceAppOAuthPostLogoutRedirectURICreate
  rw [appendPostLogoutRedirectURI_missing d m herr hid]
  simp [diag.Errorf, writes]

/-- C4 at a concrete input: a new handle for `app1` against a remote system that knows no
application. -/
theorem create_parent_missing_fails_witness :
    (resourceAppOAuthPostLogoutRedirectURICreate ⟨"", "app1", "https://b/logout"⟩
      remoteEmpty).ret =
      diag.Errorf ("failed to create post logout redirect URI: " ++
        ("application with id " ++ "app1" ++ " does not exist")) ∧
    (resourceAppOAuthPostLogoutRedirectURICreate ⟨"", "app1", "https://b/logout"⟩
      remoteEmpty).ret ≠ [] ∧
    writes (resourceAppOAuthPostLogoutRedirectURICreate ⟨"", "app1", "https://b/logout"⟩
      remoteEmpty).trace = [] ∧
    (resourceAppOAuthPostLogoutRedirectURICreate ⟨"", "app1", "https://b/logout"⟩
      remoteEmpty).d.Id = "" :=
  create_parent_missing_fails ⟨"", "app1", "https://b/logout"⟩ remoteEmpty
    (by decide) (by decide)

/-! ## Delete -/

/-- C3, the claim refuted: against a remote system that knows no application the fetch of
`app1` succeeds with an empty `Id`, and Delete returns an error diagnostic. -/
theorem delete_parent_missing_is_not_success :
    (fetchAppByID "app1" remoteEmpty NewOpenIdConnectApplication).1 = none ∧
    (fetchAppByID "app1" remoteEmpty NewOpenIdConnectApplication).2.Id = "" ∧
    (resourceAppOAuthPostLogoutRedirectURIDelete
      ⟨"https://a/logout", "app1", "https://a/logout"⟩ remoteEmpty).ret ≠ [] := by
  decide

/-- C3 as amended: when the fetch succeeds but finds no application (the fetched object
has an empty `Id`), Delete returns the error diagnostic
`application with id <app_id> does not exist` and invokes no remote write, for every
handle. -/
theorem delete_parent_missing_fails (d : ResourceData) (m : Config)
    (herr : (fetchAppByID d.app_id m NewOpenIdConnectApplication).1 = none)
    (hid : (fetchAppByID d.app_id m NewOpenIdConnectApplication).2.Id = "") :
    (resourceAppOAuthPostLogoutRedirectURIDelete d m).ret =
      diag.Errorf ("application with id " ++ d.app_id ++ " does not exist") ∧
    writes (resourceAppOAuthPostLogoutRedirectURIDelete d m).trace = [] := by
  unfold resourceAppOAuthPostLogoutRedirectURIDelete
  simp [herr, hid, writes]

/-- C3 as amended, at a concrete input: a handle for `app1` against a remote system that
knows no application. -/
theorem delete_parent_missing_fails_witness :
    (resourceAppOAuthPostLogoutRedirectURIDelete
      ⟨"https://a/logout", "app1", "https://a/logout"⟩ remoteEmpty).ret =
      diag.Errorf ("application with id " ++ "app1" ++ " does not exist") ∧
    writes (resourceAppOAuthPostLogoutRedirectURIDelete
      ⟨"https://a/logout", "app1", "https://a/logout"⟩ remoteEmpty).trace = [] :=
  delete_parent_missing_fails ⟨"https://a/logout", "app1", "https://a/logout"⟩ remoteEmpty
    (by decide) (by decide)

/-- C6: when the application exists with list `L` and the resource ID `v` of the handle is
not a member of `L`, Delete returns no diagnostics, invokes no remote write and leaves the
remote state unchanged. -/
theorem delete_absent_is_noop (d : ResourceData) (m : Config)
    (a : OpenIdConnectApplication)
    (hf : fetchAppByID d.app_id m NewOpenIdConnectApplication = (none, a))
    (hid : a.Id ≠ "")
    (hmem : d.Id ∉ a.PostLogoutRedirectUris) :
    (resourceAppOAuthPostLogoutRedirectURIDelete d m).ret = [] ∧
    writes (resourceAppOAuthPostLogoutRedirectURIDelete d m).trace = [] ∧
    (resourceAppOAuthPostLogoutRedirectURIDelete d m).m = m := by
  have hc : contains a.PostLogoutRedirectUris d.Id = false :=
    (contains_eq_false_iff _ _).2 hmem
  unfold resourceAppOAuthPostLogoutRedirectURIDelete
  simp [hf, hid, hc, writes]

/-- C6 at the input of the end-to-end scenario: `https://z/logout` was never in the list
of `app1`. -/
theorem delete_absent_is_noop_witness :
    (resourceAppOAuthPostLogoutRedirectURIDelete
      ⟨"https://z/logout", "app1", "https://z/logout"⟩
      (remoteOf (app1 ["https://b/logout"]))).ret = [] ∧
    writes (resourceAppOAuthPostLogoutRedirectURIDelete
      ⟨"https://z/logout", "app1", "https://z/logout"⟩
      (remoteOf (app1 ["https://b/logout"]))).trace = [] ∧
    (resourceAppOAuthPostLogoutRedirectURIDelete
      ⟨"https://z/logout", "app1", "https://z/logout"⟩
      (remoteOf (app1 ["https://b/logout"]))).m = remoteOf (app1 ["https://b/logout"]) :=
  delete_absent_is_noop ⟨"https://z/logout", "app1", "https://z/logout"⟩
    (remoteOf (app1 ["https://b/logout"])) (app1 ["https://b/logout"])
    (by decide) (by decide) (by decide)

/-! ## Update -/

/-- The list of the application after `appendPostLogoutRedirectURI` starts with the list
before it, whatever the remote system answers. -/
theorem appendPostLogoutRedirectURI_uris (d : ResourceData) (m : Config) :
    (appendPostLogoutRedirectURI d m).m.uris d.app_id = m.uris d.app_id ∨
    (appendPostLogoutRedirectURI d m).m.uris d.app_id = m.uris d.app_id ++ [d.uri] := by
  cases hg : m.getErr d.app_id with
  | some e =>
    left
    simp [appendPostLogoutRedirectURI, fetchAppByID, hg]
  | none =>
    cases ha : m.apps d.app_id with
    | none =>
      left
      simp [appendPostLogoutRedirectURI, fetchAppByID, hg, ha, NewOpenIdConnectApplication]
    | some a =>
      have hf : fetchAppByID d.app_id m NewOpenIdConnectApplication = (none, a) := by
        simp [fetchAppByID, hg, ha]
      by_cases hid : a.Id = ""
      · left
        simp [appendPostLogoutRedirectURI, hf, hid]
      · rw [appendPostLogoutRedirectURI_found d m a hf hid]
        by_cases hc : contains a.PostLogoutRedirectUris d.Id = true
        · left
          simp [hc]
        · cases hp : m.putErr d.app_id
              { a with PostLogoutRedirectUris := a.PostLogoutRedirectUris ++ [d.uri] } with
          | some e =>
            left
            simp [hc, updateAppByID, hp]
          | none =>
            right
            simp [hc, updateAppByID, hp, Config.uris, ha]

/-- Update hands the remote state of `appendPostLogoutRedirectURI` on unchanged. -/
theorem resourceAppOAuthPostLogoutRedirectURIUpdate_m (d : ResourceData) (m : Config) :
    (resourceAppOAuthPostLogoutRedirectURIUpdate d m).m = (appendPostLogoutRedirectURI d m).m := by
  unfold resourceAppOAuthPostLogoutRedirectURIUpdate resourceAppOAuthPostLogoutRedirectURIRead
  simp only []
  split <;> rfl

/-- C7: evaluation of Update where the claim fails. The application exists with the list
`["https://a/logout"]`, the handle still has the resource ID `https://a/logout` and its
configured uri is now `https://b/logout`. Update returns without error, but the code
finds the old resource ID in the list and stops: nothing is written and the new uri is
not a member of the list afterwards. -/
theorem update_changed_uri_not_appended :
    (resourceAppOAuthPostLogoutRedirectURIUpdate
      ⟨"https://a/logout", "app1", "https://b/logout"⟩
      (remoteOf (app1 ["https://a/logout"]))).ret = [] ∧
    writes (resourceAppOAuthPostLogoutRedirectURIUpdate
      ⟨"https://a/logout", "app1", "https://b/logout"⟩
      (remoteOf (app1 ["https://a/logout"]))).trace = [] ∧
    "https://b/logout" ∉ (resourceAppOAuthPostLogoutRedirectURIUpdate
      ⟨"https://a/logout", "app1", "https://b/logout"⟩
      (remoteOf (app1 ["https://a/logout"]))).m.uris "app1" := by
  decide

/-- C8: for every remote state and every handle, the list of the application after Update
has the list before the call as a prefix, so every value that was present, the previous
resource ID included, is still present. -/
theorem update_keeps_old_list (d : ResourceData) (m : Config) :
    m.uris d.app_id <+: (resourceAppOAuthPostLogoutRedirectURIUpdate d m).m.uris d.app_id ∧
    ∀ v ∈ m.uris d.app_id,
      v ∈ (resourceAppOAuthPostLogoutRedirectURIUpdate d m).m.uris d.app_id := by
  rw [resourceAppOAuthPostLogoutRedirectURIUpdate_m]
  rcases appendPostLogoutRedirectURI_uris d m with h | h
  · rw [h]
    exact ⟨⟨[], by simp⟩, fun v hv => hv⟩
  · rw [h]
    exact ⟨⟨[d.uri], rfl⟩, fun v hv => List.mem_append_left _ hv⟩

/-! ## Properties over several operations -/

/-- C9: evaluation of Create where the invariant breaks. The list `["https://a/logout"]`
holds every value at most once; Create on a new handle for the uri `https://a/logout`
returns without error and leaves a list that holds this value twice. -/
theorem create_breaks_at_most_once :
    (remoteOf (app1 ["https://a/logout"])).uris "app1" = ["https://a/logout"] ∧
    ((remoteOf (app1 ["https://a/logout"])).uris "app1").Nodup ∧
    (resourceAppOAuthPostLogoutRedirectURICreate ⟨"", "app1", "https://a/logout"⟩
      (remoteOf (app1 ["https://a/logout"]))).ret = [] ∧
    ¬ ((resourceAppOAuthPostLogoutRedirectURICreate ⟨"", "app1", "https://a/logout"⟩
      (remoteOf (app1 ["https://a/logout"]))).m.uris "app1").Nodup := by
  decide

/-- A GET that does not fail on an id the store knows fills the object from the store. -/
theorem fetchAppByID_found (appID : String) (m : Config) (a : OpenIdConnectApplication)
    (hg : m.getErr appID = none) (ha : m.apps appID = some a) :
    fetchAppByID appID m NewOpenIdConnectApplication = (none, a) := by
  simp [fetchAppByID, hg, ha]

/-- C11: for an existing application with list `L` and a value `v` not in `L`, Create on a
new handle with uri `v` followed by Delete on that handle, all remote calls succeeding,
returns no diagnostics twice and leaves the application as it was, its list equal to `L`
element for element. -/
theorem create_then_delete_restores_list (appID v : String) (m : Config)
    (a : OpenIdConnectApplication)
    (hg : m.getErr appID = none) (ha : m.apps appID = some a) (hid : a.Id ≠ "")
    (hv : v ∉ a.PostLogoutRedirectUris)
    (hput : ∀ x, m.putErr appID x = none) :
    (resourceAppOAuthPostLogoutRedirectURICreate ⟨"", appID, v⟩ m).ret = [] ∧
    (resourceAppOAuthPostLogoutRedirectURICreate ⟨"", appID, v⟩ m).d.Id = v ∧
    (resourceAppOAuthPostLogoutRedirectURIDelete
      (resourceAppOAuthPostLogoutRedirectURICreate ⟨"", appID, v⟩ m).d
      (resourceAppOAuthPostLogoutRedirectURICreate ⟨"", appID, v⟩ m).m).ret = [] ∧
    (resourceAppOAuthPostLogoutRedirectURIDelete
      (resourceAppOAuthPostLogoutRedirectURICreate ⟨"", appID, v⟩ m).d
      (resourceAppOAuthPostLogoutRedirectURICreate ⟨"", appID, v⟩ m).m).m.uris appID =
      a.PostLogoutRedirectUris ∧
    (resourceAppOAuthPostLogoutRedirectURIDelete
      (resourceAppOAuthPostLogoutRedirectURICreate ⟨"", appID, v⟩ m).d
      (resourceAppOAuthPostLogoutRedirectURICreate ⟨"", appID, v⟩ m).m).m.apps appID =
      some a := by
  have hf := fetchAppByID_found appID m a hg ha
  have hcv : contains a.PostLogoutRedirectUris v = false := (contains_eq_false_iff _ _).2 hv
  have happ := appendPostLogoutRedirectURI_found ⟨"", appID, v⟩ m a hf hid
  by_cases hc : contains a.PostLogoutRedirectUris "" = true
  · -- the empty resource ID is listed: Create writes nothing, Delete finds `v` absent
    have hc' : contains a.PostLogoutRedirectUris (ResourceData.Id ⟨"", appID, v⟩) = true := hc
    rw [if_pos hc'] at happ
    have hcreate : resourceAppOAuthPostLogoutRedirectURICreate ⟨"", appID, v⟩ m =
        { ret := [], d := ⟨v, appID, v⟩, m := m,
          trace := [Effect.Lock appID, Effect.Fetch appID,
            Effect.Info ("application with appID " ++ appID ++
              " already has post logout redirect URI " ++ ""),
            Effect.Unlock appID] } := by
      unfold resourceAppOAuthPostLogoutRedirectURICreate
      rw [happ]
      simp [resourceAppOAuthPostLogoutRedirectURIRead, ResourceData.SetId, ResourceData.Id]
    rw [hcreate]
    have hcv' : contains a.PostLogoutRedirectUris (ResourceData.Id ⟨v, appID, v⟩) = false := hcv
    refine ⟨rfl, rfl, ?_, ?_, ?_⟩ <;>
      simp [resourceAppOAuthPostLogoutRedirectURIDelete, hf, hid, hcv', Config.uris, ha]
  · -- the usual path: Create appends `v`, Delete removes it again
    have hc' : ¬ contains a.PostLogoutRedirectUris (ResourceData.Id ⟨"", appID, v⟩) = true := hc
    rw [if_neg hc'] at happ
    have hcreate : resourceAppOAuthPostLogoutRedirectURICreate ⟨"", appID, v⟩ m =
        { ret := [], d := ⟨v, appID, v⟩,
          m := (updateAppByID appID m
            { a with PostLogoutRedirectUris := a.PostLogoutRedirectUris ++ [v] }).2,
          trace := [Effect.Lock appID, Effect.Fetch appID,
            Effect.Write appID
              { a with PostLogoutRedirectUris := a.PostLogoutRedirectUris ++ [v] },
            Effect.Unlock appID] } := by
      unfold resourceAppOAuthPostLogoutRedirectURICreate
      rw [happ]
      simp [resourceAppOAuthPostLogoutRedirectURIRead, ResourceData.SetId, updateAppByID, hput]
    rw [hcreate]
    have hcv' : contains (a.PostLogoutRedirectUris ++ [v]) v = true :=
      (contains_iff _ _).2 (by simp)
    have hrem : remove (a.PostLogoutRedirectUris ++ [v]) v = a.PostLogoutRedirectUris := by
      rw [remove_eq_erase, List.erase_append_right _ hv]
      simp
    refine ⟨rfl, rfl, ?_, ?_, ?_⟩ <;>
      simp [resourceAppOAuthPostLogoutRedirectURIDelete, fetchAppByID, hg, hid, hcv',
        updateAppByID, hput, Config.uris, ResourceData.Id, hrem]

/-- C11 at a concrete input: `app1` holds `["https://a/logout"]` and the value is
`https://b/logout`. -/
theorem create_then_delete_restores_list_witness :
    (resourceAppOAuthPostLogoutRedirectURIDelete
      (resourceAppOAuthPostLogoutRedirectURICreate ⟨"", "app1", "https://b/logout"⟩
        (remoteOf (app1 ["https://a/logout"]))).d
      (resourceAppOAuthPostLogoutRedirectURICreate ⟨"", "app1", "https://b/logout"⟩
        (remoteOf (app1 ["https://a/logout"]))).m).m.uris "app1" =
      (app1 ["https://a/logout"]).PostLogoutRedirectUris :=
  (create_then_delete_restores_list "app1" "https://b/logout"
    (remoteOf (app1 ["https://a/logout"])) (app1 ["https://a/logout"])
    rfl (by decide) (by decide) (by decide) (fun _ => rfl)).2.2.2.1

/-! ## Shape of a run -/

/-- The error a PUT answers with is the error `updateAppByID` returns. -/
theorem updateAppByID_fst (appID : String) (m : Config) (x : OpenIdConnectApplication) :
    (updateAppByID appID m x).1 = m.putErr appID x := by
  unfold updateAppByID
  cases m.putErr appID x <;> rfl

/-- The function `appendPostLogoutRedirectURI` never touches the resource data. -/
theorem appendPostLogoutRedirectURI_d (d : ResourceData) (m : Config) :
    (appendPostLogoutRedirectURI d m).d = d := by
  unfold appendPostLogoutRedirectURI
  simp only []
  split
  · rfl
  · split_ifs <;> rfl

/-- What `appendPostLogoutRedirectURI` does when the fetch fails: it returns the error of
the fetch and touches nothing. -/
theorem appendPostLogoutRedirectURI_fetch_failed (d : ResourceData) (m : Config) (e : String)
    (herr : (fetchAppByID d.app_id m NewOpenIdConnectApplication).1 = some e) :
    appendPostLogoutRedirectURI d m =
      { ret := some e, d := d, m := m,
        trace := [Effect.Lock d.app_id, Effect.Fetch d.app_id, Effect.Unlock d.app_id] } := by
  unfold appendPostLogoutRedirectURI
  simp [herr]

/-- The writes of `appendPostLogoutRedirectURI`: one write of the fetched object with the
configured uri appended when the fetch succeeded, the object has an `Id` and the resource
ID is not listed; none otherwise. -/
theorem appendPostLogoutRedirectURI_writes (d : ResourceData) (m : Config) :
    writes (appendPostLogoutRedirectURI d m).trace =
      if (fetchAppByID d.app_id m NewOpenIdConnectApplication).1 = none ∧
          (fetchAppByID d.app_id m NewOpenIdConnectApplication).2.Id ≠ "" ∧
          d.Id ∉ (fetchAppByID d.app_id m NewOpenIdConnectApplication).2.PostLogoutRedirectUris
      then
        [(d.app_id, { (fetchAppByID d.app_id m NewOpenIdConnectApplication).2 with
          PostLogoutRedirectUris :=
            (fetchAppByID d.app_id m NewOpenIdConnectApplication).2.PostLogoutRedirectUris ++
              [d.uri] })]
      else [] := by
  cases herr : (fetchAppByID d.app_id m NewOpenIdConnectApplication).1 with
  | some e =>
    rw [appendPostLogoutRedirectURI_fetch_failed d m e herr]
    simp [writes]
  | none =>
    by_cases hid : (fetchAppByID d.app_id m NewOpenIdConnectApplication).2.Id = ""
    · rw [appendPostLogoutRedirectURI_missing d m herr hid]
      simp [writes, hid]
    · have hf : fetchAppByID d.app_id m NewOpenIdConnectApplication =
          (none, (fetchAppByID d.app_id m NewOpenIdConnectApplication).2) := by
        rw [← herr]
      rw [appendPostLogoutRedirectURI_found d m _ hf hid]
      by_cases hc : contains
          (fetchAppByID d.app_id m NewOpenIdConnectApplication).2.PostLogoutRedirectUris
          d.Id = true
      · have hm := (contains_iff _ _).1 hc
        simp [hc, hm, writes]
      · have hm : d.Id ∉
            (fetchAppByID d.app_id m NewOpenIdConnectApplication).2.PostLogoutRedirectUris :=
          fun h => hc ((contains_iff _ _).2 h)
        simp [hc, hm, hid, writes]

/-- The error `appendPostLogoutRedirectURI` returns after a write is the error of that
write. -/
theorem appendPostLogoutRedirectURI_ret_of_write (d : ResourceData) (m : Config)
    (k : String) (x : OpenIdConnectApplication)
    (hw : (k, x) ∈ writes (appendPostLogoutRedirectURI d m).trace) :
    k = d.app_id ∧
    x = { (fetchAppByID d.app_id m NewOpenIdConnectApplication).2 with
      PostLogoutRedirectUris :=
        (fetchAppByID d.app_id m NewOpenIdConnectApplication).2.PostLogoutRedirectUris ++
          [d.uri] } ∧
    writes (appendPostLogoutRedirectURI d m).trace = [(k, x)] ∧
    (appendPostLogoutRedirectURI d m).ret = m.putErr k x := by
  have hws := appendPostLogoutRedirectURI_writes d m
  by_cases hcond : (fetchAppByID d.app_id m NewOpenIdConnectApplication).1 = none ∧
      (fetchAppByID d.app_id m NewOpenIdConnectApplication).2.Id ≠ "" ∧
      d.Id ∉ (fetchAppByID d.app_id m NewOpenIdConnectApplication).2.PostLogoutRedirectUris
  · rw [if_pos hcond] at hws
    rw [hws] at hw
    have hkx := List.mem_singleton.1 hw
    obtain ⟨hk, hx⟩ := Prod.mk.inj hkx
    obtain ⟨herr, hid, hm⟩ := hcond
    have hf : fetchAppByID d.app_id m NewOpenIdConnectApplication =
        (none, (fetchAppByID d.app_id m NewOpenIdConnectApplication).2) := by
      rw [← herr]
    have hc : ¬ contains
        (fetchAppByID d.app_id m NewOpenIdConnectApplication).2.PostLogoutRedirectUris
        d.Id = true := fun h => hm ((contains_iff _ _).1 h)
    refine ⟨hk, hx, ?_, ?_⟩
    · rw [hws, hkx]
    · rw [appendPostLogoutRedirectURI_found d m _ hf hid, if_neg hc, hk, hx]
      exact updateAppByID_fst _ _ _
  · rw [if_neg hcond] at hws
    rw [hws] at hw
    exact absurd hw (List.not_mem_nil _)

/-- Create performs the effects of `appendPostLogoutRedirectURI` and no others. -/
theorem resourceAppOAuthPostLogoutRedirectURICreate_trace (d : ResourceData) (m : Config) :
    (resourceAppOAuthPostLogoutRedirectURICreate d m).trace =
      (appendPostLogoutRedirectURI d m).trace := by
  unfold resourceAppOAuthPostLogoutRedirectURICreate resourceAppOAuthPostLogoutRedirectURIRead
  simp only []
  split <;> simp

/-- Update performs the effects of `appendPostLogoutRedirectURI` and no others. -/
theorem resourceAppOAuthPostLogoutRedirectURIUpdate_trace (d : ResourceData) (m : Config) :
    (resourceAppOAuthPostLogoutRedirectURIUpdate d m).trace =
      (appendPostLogoutRedirectURI d m).trace := by
  unfold resourceAppOAuthPostLogoutRedirectURIUpdate resourceAppOAuthPostLogoutRedirectURIRead
  simp only []
  split <;> simp

/-- The diagnostics of Create in terms of the error of `appendPostLogoutRedirectURI`. -/
theorem resourceAppOAuthPostLogoutRedirectURICreate_ret (d : ResourceData) (m : Config) :
    (resourceAppOAuthPostLogoutRedirectURICreate d m).ret =
      match (appendPostLogoutRedirectURI d m).ret with
      | some err => diag.Errorf ("failed to create post logout redirect URI: " ++ err)
      | none => [] := by
  unfold resourceAppOAuthPostLogoutRedirectURICreate resourceAppOAuthPostLogoutRedirectURIRead
  simp only []
  split <;> simp_all

/-- The diagnostics of Update in terms of the error of `appendPostLogoutRedirectURI`. -/
theorem resourceAppOAuthPostLogoutRedirectURIUpdate_ret (d : ResourceData) (m : Config) :
    (resourceAppOAuthPostLogoutRedirectURIUpdate d m).ret =
      match (appendPostLogoutRedirectURI d m).ret with
      | some err => diag.Errorf ("failed to update post logout redirect URI: " ++ err)
      | none => [] := by
  unfold resourceAppOAuthPostLogoutRedirectURIUpdate resourceAppOAuthPostLogoutRedirectURIRead
  simp only []
  split <;> simp_all

/-- The resource data after Create: the ID is set to the configured uri exactly when
`appendPostLogoutRedirectURI` returned no error. -/
theorem resourceAppOAuthPostLogoutRedirectURICreate_d (d : ResourceData) (m : Config) :
    (resourceAppOAuthPostLogoutRedirectURICreate d m).d =
      match (appendPostLogoutRedirectURI d m).ret with
      | some _ => d
      | none => d.SetId d.uri := by
  unfold resourceAppOAuthPostLogoutRedirectURICreate resourceAppOAuthPostLogoutRedirectURIRead
  simp only []
  split <;> simp_all [appendPostLogoutRedirectURI_d]

/-- The resource data after Update: the ID is set to the configured uri exactly when
`appendPostLogoutRedirectURI` returned no error. -/
theorem resourceAppOAuthPostLogoutRedirectURIUpdate_d (d : ResourceData) (m : Config) :
    (resourceAppOAuthPostLogoutRedirectURIUpdate d m).d =
      match (appendPostLogoutRedirectURI d m).ret with
      | some _ => d
      | none => d.SetId d.uri := by
  unfold resourceAppOAuthPostLogoutRedirectURIUpdate resourceAppOAuthPostLogoutRedirectURIRead
  simp only []
  split <;> simp_all [appendPostLogoutRedirectURI_d]

/-- What Delete does when the fetch fails: it reports the error of the fetch and touches
nothing. -/
theorem resourceAppOAuthPostLogoutRedirectURIDelete_fetch_failed (d : ResourceData)
    (m : Config) (e : String)
    (herr : (fetchAppByID d.app_id m NewOpenIdConnectApplication).1 = some e) :
    resourceAppOAuthPostLogoutRedirectURIDelete d m =
      { ret := diag.Errorf ("failed to get application: " ++ e), d := d, m := m,
        trace := [Effect.Lock d.app_id, Effect.Fetch d.app_id, Effect.Unlock d.app_id] } := by
  unfold resourceAppOAuthPostLogoutRedirectURIDelete
  simp [herr]

/-- What Delete does when the fetch finds no application. -/
theorem resourceAppOAuthPostLogoutRedirectURIDelete_missing (d : ResourceData) (m : Config)
    (herr : (fetchAppByID d.app_id m NewOpenIdConnectApplication).1 = none)
    (hid : (fetchAppByID d.app_id m NewOpenIdConnectApplication).2.Id = "") :
    resourceAppOAuthPostLogoutRedirectURIDelete d m =
      { ret := diag.Errorf ("application with id " ++ d.app_id ++ " does not exist"),
        d := d, m := m,
        trace := [Effect.Lock d.app_id, Effect.Fetch d.app_id, Effect.Unlock d.app_id] } := by
  unfold resourceAppOAuthPostLogoutRedirectURIDelete
  simp [herr, hid]

/-- What Delete does once the fetch has found an application that does not list the
resource ID. -/
theorem resourceAppOAuthPostLogoutRedirectURIDelete_absent (d : ResourceData) (m : Config)
    (a : OpenIdConnectApplication)
    (hf : fetchAppByID d.app_id m NewOpenIdConnectApplication = (none, a))
    (hid : a.Id ≠ "") (hc : contains a.PostLogoutRedirectUris d.Id = false) :
    resourceAppOAuthPostLogoutRedirectURIDelete d m =
      { ret := [], d := d, m := m,
        trace := [Effect.Lock d.app_id, Effect.Fetch d.app_id,
          Effect.Info ("application with appID " ++ d.app_id ++
            " does not have post logout redirect URI " ++ d.Id),
          Effect.Unlock d.app_id] } := by
  unfold resourceAppOAuthPostLogoutRedirectURIDelete
  simp [hf, hid, hc]

/-- What Delete does once the fetch has found an application that lists the resource ID:
one write of the fetched object without that value, whose error, if any, is reported. -/
theorem resourceAppOAuthPostLogoutRedirectURIDelete_present (d : ResourceData) (m : Config)
    (a : OpenIdConnectApplication)
    (hf : fetchAppByID d.app_id m NewOpenIdConnectApplication = (none, a))
    (hid : a.Id ≠ "") (hc : contains a.PostLogoutRedirectUris d.Id = true) :
    resourceAppOAuthPostLogoutRedirectURIDelete d m =
      { ret :=
          match m.putErr d.app_id
            { a with PostLogoutRedirectUris := remove a.PostLogoutRedirectUris d.Id } with
          | some err => diag.Errorf ("failed to delete post logout redirect URI: " ++ err)
          | none => [],
        d := d,
        m := (updateAppByID d.app_id m
          { a with PostLogoutRedirectUris := remove a.PostLogoutRedirectUris d.Id }).2,
        trace := [Effect.Lock d.app_id, Effect.Fetch d.app_id,
          Effect.Write d.app_id
            { a with PostLogoutRedirectUris := remove a.PostLogoutRedirectUris d.Id },
          Effect.Unlock d.app_id] } := by
  unfold resourceAppOAuthPostLogoutRedirectURIDelete
  simp only [hf, hid, hc, if_false, Bool.not_true, Bool.false_eq_true]
  cases hp : m.putErr d.app_id
      { a with PostLogoutRedirectUris := remove a.PostLogoutRedirectUris d.Id } <;>
    simp [updateAppByID, hp]

/-- The writes of Delete: one write of the fetched object without the resource ID when
the fetch succeeded, the object has an `Id` and the resource ID is listed; none
otherwise. -/
theorem resourceAppOAuthPostLogoutRedirectURIDelete_writes (d : ResourceData) (m : Config) :
    writes (resourceAppOAuthPostLogoutRedirectURIDelete d m).trace =
      if (fetchAppByID d.app_id m NewOpenIdConnectApplication).1 = none ∧
          (fetchAppByID d.app_id m NewOpenIdConnectApplication).2.Id ≠ "" ∧
          d.Id ∈ (fetchAppByID d.app_id m NewOpenIdConnectApplication).2.PostLogoutRedirectUris
      then
        [(d.app_id, { (fetchAppByID d.app_id m NewOpenIdConnectApplication).2 with
          PostLogoutRedirectUris := remove
            (fetchAppByID d.app_id m NewOpenIdConnectApplication).2.PostLogoutRedirectUris
            d.Id })]
      else [] := by
  cases herr : (fetchAppByID d.app_id m NewOpenIdConnectApplication).1 with
  | some e =>
    rw [resourceAppOAuthPostLogoutRedirectURIDelete_fetch_failed d m e herr]
    simp [writes]
  | none =>
    by_cases hid : (fetchAppByID d.app_id m NewOpenIdConnectApplication).2.Id = ""
    · rw [resourceAppOAuthPostLogoutRedirectURIDelete_missing d m herr hid]
      simp [writes, hid]
    · have hf : fetchAppByID d.app_id m NewOpenIdConnectApplication =
          (none, (fetchAppByID d.app_id m NewOpenIdConnectApplication).2) := by
        rw [← herr]
      by_cases hm : d.Id ∈
          (fetchAppByID d.app_id m NewOpenIdConnectApplication).2.PostLogoutRedirectUris
      · rw [resourceAppOAuthPostLogoutRedirectURIDelete_present d m _ hf hid
          ((contains_iff _ _).2 hm)]
        simp [hm, hid, writes]
      · rw [resourceAppOAuthPostLogoutRedirectURIDelete_absent d m _ hf hid
          ((contains_eq_false_iff _ _).2 hm)]
        simp [hm, writes]

/-- The diagnostics Delete returns after a write report the error of that write. -/
theorem resourceAppOAuthPostLogoutRedirectURIDelete_ret_of_write (d : ResourceData)
    (m : Config) (k : String) (x : OpenIdConnectApplication)
    (hw : (k, x) ∈ writes (resourceAppOAuthPostLogoutRedirectURIDelete d m).trace) :
    k = d.app_id ∧
    x = { (fetchAppByID d.app_id m NewOpenIdConnectApplication).2 with
      PostLogoutRedirectUris := remove
        (fetchAppByID d.app_id m NewOpenIdConnectApplication).2.PostLogoutRedirectUris
        d.Id } ∧
    writes (resourceAppOAuthPostLogoutRedirectURIDelete d m).trace = [(k, x)] ∧
    (resourceAppOAuthPostLogoutRedirectURIDelete d m).ret =
      match m.putErr k x with
      | some err => diag.Errorf ("failed to delete post logout redirect URI: " ++ err)
      | none => [] := by
  have hws := resourceAppOAuthPostLogoutRedirectURIDelete_writes d m
  by_cases hcond : (fetchAppByID d.app_id m NewOpenIdConnectApplication).1 = none ∧
      (fetchAppByID d.app_id m NewOpenIdConnectApplication).2.Id ≠ "" ∧
      d.Id ∈ (fetchAppByID d.app_id m NewOpenIdConnectApplication).2.PostLogoutRedirectUris
  · rw [if_pos hcond] at hws
    rw [hws] at hw
    have hkx := List.mem_singleton.1 hw
    obtain ⟨hk, hx⟩ := Prod.mk.inj hkx
    obtain ⟨herr, hid, hm⟩ := hcond
    have hf : fetchAppByID d.app_id m NewOpenIdConnectApplication =
        (none, (fetchAppByID d.app_id m NewOpenIdConnectApplication).2) := by
      rw [← herr]
    refine ⟨hk, hx, ?_, ?_⟩
    · rw [hws, hkx]
    · rw [resourceAppOAuthPostLogoutRedirectURIDelete_present d m _ hf hid
        ((contains_iff _ _).2 hm), hk, hx]
  · rw [if_neg hcond] at hws
    rw [hws] at hw
    exact absurd hw (List.not_mem_nil _)

/-! ## Identifier, errors, frame and guard -/

/-- C12: after a run of Create or of Update that returns no diagnostics the resource ID
equals the configured uri; after a run of Create that returns diagnostics the resource ID
is what it was before, so a new handle is still unset (empty). -/
theorem resource_id_is_configured_uri (d : ResourceData) (m : Config) :
    ((resourceAppOAuthPostLogoutRedirectURICreate d m).ret = [] → (resourceAppOAuthPostLogoutRedirectURICreate d m).d.Id = d.uri) ∧
    ((resourceAppOAuthPostLogoutRedirectURIUpdate d m).ret = [] → (resourceAppOAuthPostLogoutRedirectURIUpdate d m).d.Id = d.uri) ∧
    ((resourceAppOAuthPostLogoutRedirectURICreate d m).ret ≠ [] → (resourceAppOAuthPostLogoutRedirectURICreate d m).d.Id = d.Id) ∧
    ((resourceAppOAuthPostLogoutRedirectURICreate d m).ret ≠ [] → d.Id = "" → (resourceAppOAuthPostLogoutRedirectURICreate d m).d.Id = "") := by
  rw [resourceAppOAuthPostLogoutRedirectURICreate_ret, resourceAppOAuthPostLogoutRedirectURICreate_d, resourceAppOAuthPostLogoutRedirectURIUpdate_ret, resourceAppOAuthPostLogoutRedirectURIUpdate_d]
  cases (appendPostLogoutRedirectURI d m).ret with
  | none => simp [ResourceData.SetId, ResourceData.Id]
  | some err => simp [diag.Errorf]

/-- C12 at concrete inputs: a Create that succeeds on `app1`, an Update that succeeds on
`app1`, and a Create that fails because no application exists. -/
theorem resource_id_is_configured_uri_witness :
    (resourceAppOAuthPostLogoutRedirectURICreate ⟨"", "app1", "https://b/logout"⟩
      (remoteOf (app1 ["https://a/logout"]))).d.Id = "https://b/logout" ∧
    (resourceAppOAuthPostLogoutRedirectURIUpdate ⟨"https://a/logout", "app1", "https://b/logout"⟩
      (remoteOf (app1 ["https://a/logout"]))).d.Id = "https://b/logout" ∧
    (resourceAppOAuthPostLogoutRedirectURICreate ⟨"", "app1", "https://b/logout"⟩ remoteEmpty).d.Id = "" :=
  ⟨(resource_id_is_configured_uri ⟨"", "app1", "https://b/logout"⟩
      (remoteOf (app1 ["https://a/logout"]))).1 (by decide),
   (resource_id_is_configured_uri ⟨"https://a/logout", "app1", "https://b/logout"⟩
      (remoteOf (app1 ["https://a/logout"]))).2.1 (by decide),
   (resource_id_is_configured_uri ⟨"", "app1", "https://b/logout"⟩ remoteEmpty).2.2.2
      (by decide) rfl⟩

/-- C13: for Create, Update and Delete, if the fetch returns the error `e`, the operation
returns one error diagnostic whose message ends with the message of `e`, and it makes one
fetch and no write; if a write it invoked returns the error `e`, the operation returns
one error diagnostic whose message ends with the message of `e`, and that write is the
only one. -/
theorem remote_errors_propagate (d : ResourceData) (m : Config) (e : String) :
    ((fetchAppByID d.app_id m NewOpenIdConnectApplication).1 = some e →
      ((resourceAppOAuthPostLogoutRedirectURICreate d m).ret =
          diag.Errorf ("failed to create post logout redirect URI: " ++ e) ∧
        (resourceAppOAuthPostLogoutRedirectURICreate d m).trace =
          [Effect.Lock d.app_id, Effect.Fetch d.app_id, Effect.Unlock d.app_id] ∧
        writes (resourceAppOAuthPostLogoutRedirectURICreate d m).trace = []) ∧
      ((resourceAppOAuthPostLogoutRedirectURIUpdate d m).ret =
          diag.Errorf ("failed to update post logout redirect URI: " ++ e) ∧
        (resourceAppOAuthPostLogoutRedirectURIUpdate d m).trace =
          [Effect.Lock d.app_id, Effect.Fetch d.app_id, Effect.Unlock d.app_id] ∧
        writes (resourceAppOAuthPostLogoutRedirectURIUpdate d m).trace = []) ∧
      ((resourceAppOAuthPostLogoutRedirectURIDelete d m).ret = diag.Errorf ("failed to get application: " ++ e) ∧
        (resourceAppOAuthPostLogoutRedirectURIDelete d m).trace =
          [Effect.Lock d.app_id, Effect.Fetch d.app_id, Effect.Unlock d.app_id] ∧
        writes (resourceAppOAuthPostLogoutRedirectURIDelete d m).trace = [])) ∧
    (∀ k x, (k, x) ∈ writes (resourceAppOAuthPostLogoutRedirectURICreate d m).trace → m.putErr k x = some e →
      (resourceAppOAuthPostLogoutRedirectURICreate d m).ret =
          diag.Errorf ("failed to create post logout redirect URI: " ++ e) ∧
        writes (resourceAppOAuthPostLogoutRedirectURICreate d m).trace = [(k, x)]) ∧
    (∀ k x, (k, x) ∈ writes (resourceAppOAuthPostLogoutRedirectURIUpdate d m).trace → m.putErr k x = some e →
      (resourceAppOAuthPostLogoutRedirectURIUpdate d m).ret =
          diag.Errorf ("failed to update post logout redirect URI: " ++ e) ∧
        writes (resourceAppOAuthPostLogoutRedirectURIUpdate d m).trace = [(k, x)]) ∧
    (∀ k x, (k, x) ∈ writes (resourceAppOAuthPostLogoutRedirectURIDelete d m).trace → m.putErr k x = some e →
      (resourceAppOAuthPostLogoutRedirectURIDelete d m).ret =
          diag.Errorf ("failed to delete post logout redirect URI: " ++ e) ∧
        writes (resourceAppOAuthPostLogoutRedirectURIDelete d m).trace = [(k, x)]) := by
  refine ⟨fun herr => ?_, fun k x hw hp => ?_, fun k x hw hp => ?_, fun k x hw hp => ?_⟩
  · rw [resourceAppOAuthPostLogoutRedirectURICreate_ret, resourceAppOAuthPostLogoutRedirectURICreate_trace, resourceAppOAuthPostLogoutRedirectURIUpdate_ret, resourceAppOAuthPostLogoutRedirectURIUpdate_trace,
      appendPostLogoutRedirectURI_fetch_failed d m e herr,
      resourceAppOAuthPostLogoutRedirectURIDelete_fetch_failed d m e herr]
    simp [writes]
  · rw [resourceAppOAuthPostLogoutRedirectURICreate_trace] at hw
    obtain ⟨_, _, hws, hret⟩ := appendPostLogoutRedirectURI_ret_of_write d m k x hw
    rw [resourceAppOAuthPostLogoutRedirectURICreate_ret, resourceAppOAuthPostLogoutRedirectURICreate_trace, hret, hp]
    exact ⟨rfl, hws⟩
  · rw [resourceAppOAuthPostLogoutRedirectURIUpdate_trace] at hw
    obtain ⟨_, _, hws, hret⟩ := appendPostLogoutRedirectURI_ret_of_write d m k x hw
    rw [resourceAppOAuthPostLogoutRedirectURIUpdate_ret, resourceAppOAuthPostLogoutRedirectURIUpdate_trace, hret, hp]
    exact ⟨rfl, hws⟩
  · obtain ⟨_, _, hws, hret⟩ := resourceAppOAuthPostLogoutRedirectURIDelete_ret_of_write d m k x hw
    rw [hret, hp]
    exact ⟨rfl, hws⟩

/-- C14: for every handle and provider state, Read returns no diagnostics, performs no
effect at all (no lock, no fetch, no write) and hands back the resource data and the
remote state as they were. -/
theorem read_is_noop (d : ResourceData) (m : Config) :
    (resourceAppOAuthPostLogoutRedirectURIRead d m).ret = [] ∧ (resourceAppOAuthPostLogoutRedirectURIRead d m).trace = [] ∧
    (resourceAppOAuthPostLogoutRedirectURIRead d m).d = d ∧ (resourceAppOAuthPostLogoutRedirectURIRead d m).m = m :=
  ⟨rfl, rfl, rfl, rfl⟩

/-- C15: whenever a run of Create, Update or Delete invokes the remote write, the write
goes to the `app_id` that was fetched, the fetch had succeeded, and the object written is
the fetched object with no field other than the post-logout redirect list changed. -/
theorem write_changes_only_redirect_list (d : ResourceData) (m : Config) (k : String)
    (x : OpenIdConnectApplication)
    (hw : (k, x) ∈ writes (resourceAppOAuthPostLogoutRedirectURICreate d m).trace ∨ (k, x) ∈ writes (resourceAppOAuthPostLogoutRedirectURIUpdate d m).trace ∨
      (k, x) ∈ writes (resourceAppOAuthPostLogoutRedirectURIDelete d m).trace) :
    k = d.app_id ∧ (fetchAppByID d.app_id m NewOpenIdConnectApplication).1 = none ∧
    x.Id = (fetchAppByID d.app_id m NewOpenIdConnectApplication).2.Id ∧ x.rest = (fetchAppByID d.app_id m NewOpenIdConnectApplication).2.rest ∧
    x = { (fetchAppByID d.app_id m NewOpenIdConnectApplication).2 with PostLogoutRedirectUris := x.PostLogoutRedirectUris } := by
  have happend : ∀ hw' : (k, x) ∈ writes (appendPostLogoutRedirectURI d m).trace,
      k = d.app_id ∧ (fetchAppByID d.app_id m NewOpenIdConnectApplication).1 = none ∧
      x.Id = (fetchAppByID d.app_id m NewOpenIdConnectApplication).2.Id ∧ x.rest = (fetchAppByID d.app_id m NewOpenIdConnectApplication).2.rest ∧
      x = { (fetchAppByID d.app_id m NewOpenIdConnectApplication).2 with PostLogoutRedirectUris := x.PostLogoutRedirectUris } := by
    intro hw'
    obtain ⟨hk, hx, _, _⟩ := appendPostLogoutRedirectURI_ret_of_write d m k x hw'
    have hcond : (fetchAppByID d.app_id m NewOpenIdConnectApplication).1 = none := by
      by_contra hne
      rw [appendPostLogoutRedirectURI_writes, if_neg (fun h => hne h.1)] at hw'
      exact absurd hw' (List.not_mem_nil _)
    refine ⟨hk, hcond, ?_, ?_, ?_⟩
    · rw [hx]
    · rw [hx]
    · rw [hx]
  rcases hw with hw | hw | hw
  · rw [resourceAppOAuthPostLogoutRedirectURICreate_trace] at hw
    exact happend hw
  · rw [resourceAppOAuthPostLogoutRedirectURIUpdate_trace] at hw
    exact happend hw
  · obtain ⟨hk, hx, _, _⟩ := resourceAppOAuthPostLogoutRedirectURIDelete_ret_of_write d m k x hw
    have hcond : (fetchAppByID d.app_id m NewOpenIdConnectApplication).1 = none := by
      by_contra hne
      rw [resourceAppOAuthPostLogoutRedirectURIDelete_writes, if_neg (fun h => hne h.1)] at hw
      exact absurd hw (List.not_mem_nil _)
    refine ⟨hk, hcond, ?_, ?_, ?_⟩
    · rw [hx]
    · rw [hx]
    · rw [hx]

/-- C15 at a concrete input: the write Create makes on `app1`. -/
theorem write_changes_only_redirect_list_witness :
    "app1" = "app1" ∧
    (fetchAppByID "app1" (remoteOf (app1 ["https://a/logout"]))
      NewOpenIdConnectApplication).1 = none ∧
    (app1 ["https://a/logout", "https://b/logout"]).Id =
      (fetchAppByID "app1" (remoteOf (app1 ["https://a/logout"]))
        NewOpenIdConnectApplication).2.Id ∧
    (app1 ["https://a/logout", "https://b/logout"]).rest =
      (fetchAppByID "app1" (remoteOf (app1 ["https://a/logout"]))
        NewOpenIdConnectApplication).2.rest ∧
    app1 ["https://a/logout", "https://b/logout"] =
      { (fetchAppByID "app1" (remoteOf (app1 ["https://a/logout"]))
          NewOpenIdConnectApplication).2 with
        PostLogoutRedirectUris :=
          (app1 ["https://a/logout", "https://b/logout"]).PostLogoutRedirectUris } :=
  write_changes_only_redirect_list ⟨"", "app1", "https://b/logout"⟩
    (remoteOf (app1 ["https://a/logout"])) "app1"
    (app1 ["https://a/logout", "https://b/logout"]) (Or.inl (by decide))

/-- C13 at concrete inputs: a Delete whose fetch fails with `timeout`, and a Create whose
write fails with `rejected`. -/
theorem remote_errors_propagate_witness :
    (resourceAppOAuthPostLogoutRedirectURIDelete ⟨"https://a/logout", "app1", "https://a/logout"⟩
      (remoteGetFails "timeout")).ret =
      diag.Errorf ("failed to get application: " ++ "timeout") ∧
    ((resourceAppOAuthPostLogoutRedirectURICreate ⟨"", "app1", "https://b/logout"⟩
      (remotePutFails (app1 ["https://a/logout"]) "rejected")).ret =
      diag.Errorf ("failed to create post logout redirect URI: " ++ "rejected") ∧
    writes (resourceAppOAuthPostLogoutRedirectURICreate ⟨"", "app1", "https://b/logout"⟩
      (remotePutFails (app1 ["https://a/logout"]) "rejected")).trace =
      [("app1", app1 ["https://a/logout", "https://b/logout"])]) :=
  ⟨((remote_errors_propagate ⟨"https://a/logout", "app1", "https://a/logout"⟩
      (remoteGetFails "timeout") "timeout").1 (by decide)).2.2.1,
   (remote_errors_propagate ⟨"", "app1", "https://b/logout"⟩
      (remotePutFails (app1 ["https://a/logout"]) "rejected") "rejected").2.1
      "app1" (app1 ["https://a/logout", "https://b/logout"]) (by decide) (by decide)⟩

/-- Every trace of `appendPostLogoutRedirectURI` is the lock of `app_id`, a body without
mutex operations, and the unlock of `app_id`. -/
theorem appendPostLogoutRedirectURI_bracketed (d : ResourceData) (m : Config) :
    ∃ body, (appendPostLogoutRedirectURI d m).trace =
        Effect.Lock d.app_id :: (body ++ [Effect.Unlock d.app_id]) ∧
      ∀ e ∈ body, e.isGuard = false := by
  unfold appendPostLogoutRedirectURI
  simp only []
  split
  · exact ⟨[Effect.Fetch d.app_id], by simp, by simp [Effect.isGuard]⟩
  · split_ifs
    · exact ⟨[Effect.Fetch d.app_id], by simp, by simp [Effect.isGuard]⟩
    · exact ⟨[Effect.Fetch d.app_id, Effect.Info _], rfl, by simp [Effect.isGuard]⟩
    · exact ⟨[Effect.Fetch d.app_id, Effect.Write d.app_id _], rfl,
        by simp [Effect.isGuard]⟩

/-- C17: in every run of Create, Update or Delete, whatever the remote system answers,
the trace is `Lock(app_id)`, then a body that holds no mutex operation, then
`Unlock(app_id)`. So the lock occurs once and first, the unlock once and last, both on
the key `app_id`, and every fetch and write lies between them. -/
theorem guard_brackets_remote_calls (d : ResourceData) (m : Config) :
    (∃ body, (resourceAppOAuthPostLogoutRedirectURICreate d m).trace =
        Effect.Lock d.app_id :: (body ++ [Effect.Unlock d.app_id]) ∧
      ∀ e ∈ body, e.isGuard = false) ∧
    (∃ body, (resourceAppOAuthPostLogoutRedirectURIUpdate d m).trace =
        Effect.Lock d.app_id :: (body ++ [Effect.Unlock d.app_id]) ∧
      ∀ e ∈ body, e.isGuard = false) ∧
    (∃ body, (resourceAppOAuthPostLogoutRedirectURIDelete d m).trace =
        Effect.Lock d.app_id :: (body ++ [Effect.Unlock d.app_id]) ∧
      ∀ e ∈ body, e.isGuard = false) := by
  refine ⟨?_, ?_, ?_⟩
  · rw [resourceAppOAuthPostLogoutRedirectURICreate_trace]
    exact appendPostLogoutRedirectURI_bracketed d m
  · rw [resourceAppOAuthPostLogoutRedirectURIUpdate_trace]
    exact appendPostLogoutRedirectURI_bracketed d m
  · unfold resourceAppOAuthPostLogoutRedirectURIDelete
    simp only []
    split
    · exact ⟨[Effect.Fetch d.app_id], by simp, by simp [Effect.isGuard]⟩
    · split_ifs
      · exact ⟨[Effect.Fetch d.app_id], by simp, by simp [Effect.isGuard]⟩
      · exact ⟨[Effect.Fetch d.app_id, Effect.Info _], rfl, by simp [Effect.isGuard]⟩
      · split
        · exact ⟨[Effect.Fetch d.app_id, Effect.Write d.app_id _], rfl,
            by simp [Effect.isGuard]⟩
        · exact ⟨[Effect.Fetch d.app_id, Effect.Write d.app_id _], rfl,
            by simp [Effect.isGuard]⟩

/-- C18: `appendPostLogoutRedirectURI` invokes the remote write if and only if the fetch
succeeds, the fetched application has a non-empty `Id` and the current resource ID
`d.Id()` (not the configured uri) is not a member of the fetched list; a write it invokes
is the only one, goes to `app_id`, and carries the fetched list with the configured uri
appended at the end. -/
theorem append_write_condition (d : ResourceData) (m : Config) :
    (writes (appendPostLogoutRedirectURI d m).trace ≠ [] ↔
      ((fetchAppByID d.app_id m NewOpenIdConnectApplication).1 = none ∧ (fetchAppByID d.app_id m NewOpenIdConnectApplication).2.Id ≠ "" ∧
        d.Id ∉ (fetchAppByID d.app_id m NewOpenIdConnectApplication).2.PostLogoutRedirectUris)) ∧
    (∀ k x, (k, x) ∈ writes (appendPostLogoutRedirectURI d m).trace →
      k = d.app_id ∧
      x.PostLogoutRedirectUris = (fetchAppByID d.app_id m NewOpenIdConnectApplication).2.PostLogoutRedirectUris ++ [d.uri] ∧
      writes (appendPostLogoutRedirectURI d m).trace = [(k, x)]) := by
  constructor
  · rw [appendPostLogoutRedirectURI_writes]
    split_ifs with h
    · simp [h]
    · simp [h]
  · intro k x hw
    obtain ⟨hk, hx, hws, _⟩ := appendPostLogoutRedirectURI_ret_of_write d m k x hw
    refine ⟨hk, ?_, hws⟩
    rw [hx]

/-! ## Email template: building the payload -/

/-- Reading a map after an assignment: the assigned key yields the assigned value, every
other key what it yielded before. -/
theorem mapIndex_mapAssign (tm : TranslationMap) (key : String) (val : EmailTranslation)
    (key' : String) :
    mapIndex (mapAssign tm key val) key' =
      if key = key' then some val else mapIndex tm key' := by
  induction tm with
  | nil => simp [mapAssign, mapIndex]
  | cons kv more ih =>
    obtain ⟨k, v⟩ := kv
    by_cases hk : k = key
    · subst hk
      by_cases hk' : k = key' <;> simp [mapAssign, mapIndex, hk']
    · by_cases hk' : k = key'
      · subst hk'
        have hne : ¬ key = k := fun h => hk h.symm
        simp [mapAssign, mapIndex, hk, hne]
      · simp [mapAssign, mapIndex, hk, hk', ih]

/-- A key that is the language of no element of the list reads as before the loop. -/
theorem mapIndex_buildTranslations_of_not_mem (l : List Translation) (acc : TranslationMap)
    (key : String) (h : ∀ t ∈ l, t.language ≠ key) :
    mapIndex (buildTranslations l acc) key = mapIndex acc key := by
  induction l generalizing acc with
  | nil => rfl
  | cons t rest ih =>
    have ht : ¬ t.language = key := h t (List.mem_cons_self _ _)
    rw [buildTranslations, ih _ (fun u hu => h u (List.mem_cons_of_mem _ hu)),
      mapIndex_mapAssign, if_neg ht]

/-- A key that is the language of some element of the list reads, after the loop, as the
subject and template of such an element. -/
theorem mapIndex_buildTranslations_of_mem (l : List Translation) (acc : TranslationMap)
    (key : String) (h : ∃ t ∈ l, t.language = key) :
    ∃ t ∈ l, t.language = key ∧
      mapIndex (buildTranslations l acc) key =
        some { Subject := t.subject, Template := t.template } := by
  induction l generalizing acc with
  | nil =>
    obtain ⟨t, ht, _⟩ := h
    exact absurd ht (List.not_mem_nil _)
  | cons t rest ih =>
    by_cases hrest : ∃ u ∈ rest, u.language = key
    · obtain ⟨u, hu, hlang, hval⟩ := ih
        (mapAssign acc t.language { Subject := t.subject, Template := t.template }) hrest
      exact ⟨u, List.mem_cons_of_mem _ hu, hlang, by rw [buildTranslations, hval]⟩
    · have hnone : ∀ u ∈ rest, u.language ≠ key := fun u hu hl => hrest ⟨u, hu, hl⟩
      have ht : t.language = key := by
        obtain ⟨u, hu, hl⟩ := h
        rcases List.mem_cons.1 hu with rfl | hu'
        · exact hl
        · exact absurd hl (hnone u hu')
      refine ⟨t, List.mem_cons_self _ _, ht, ?_⟩
      rw [buildTranslations, mapIndex_buildTranslations_of_not_mem rest _ key hnone,
        mapIndex_mapAssign, if_pos ht]

/-- When the default language is translated, `buildEmailTemplate` returns: the lookup
`trans[defaultLang]` is the translation of an entry of the set in that language. -/
theorem buildEmailTemplate_has_template (d : TemplateEmailData)
    (h : ∃ t ∈ d.translations, t.language = d.default_language) :
    ∃ temp, ∃ t ∈ d.translations, buildEmailTemplate d = some temp ∧
      t.language = d.default_language := by
  obtain ⟨t, ht, hlang, hval⟩ :=
    mapIndex_buildTranslations_of_mem d.translations [] d.default_language h
  refine ⟨{ Id := "", DefaultLanguage := d.default_language, Name := "Custom",
            Type_ := d.type, Translations := buildTranslations d.translations [],
            Subject := t.subject, Template := t.template }, t, ht, ?_, hlang⟩
  unfold buildEmailTemplate
  simp only [hval]

/-- C19: for every resource data whose translations set has an entry with language equal
to `default_language`, `buildEmailTemplate` returns a template with `DefaultLanguage`
equal to `default_language`, `Name` equal to `Custom`, `Type` equal to the configured
type, and `Subject` and `Template` equal to those stored in
`Translations[default_language]`, which are the subject and template of an entry of the
set in that language. -/
theorem buildEmailTemplate_uses_default_translation (d : TemplateEmailData)
    (h : ∃ t ∈ d.translations, t.language = d.default_language) :
    ∃ temp tr, buildEmailTemplate d = some temp ∧
      temp.DefaultLanguage = d.default_language ∧ temp.Name = "Custom" ∧
      temp.Type_ = d.type ∧
      mapIndex temp.Translations d.default_language = some tr ∧
      temp.Subject = tr.Subject ∧ temp.Template = tr.Template ∧
      ∃ t ∈ d.translations, t.language = d.default_language ∧
        tr.Subject = t.subject ∧ tr.Template = t.template := by
  obtain ⟨t, ht, hlang, hval⟩ :=
    mapIndex_buildTranslations_of_mem d.translations [] d.default_language h
  refine ⟨{ Id := "", DefaultLanguage := d.default_language, Name := "Custom",
            Type_ := d.type, Translations := buildTranslations d.translations [],
            Subject := t.subject, Template := t.template },
          { Subject := t.subject, Template := t.template }, ?_, rfl, rfl, rfl, hval, rfl, rfl,
          t, ht, hlang, rfl, rfl⟩
  unfold buildEmailTemplate
  simp only [hval]

/-- C19 at a concrete input: an English and a Spanish translation with default language
`en`. -/
theorem buildEmailTemplate_uses_default_translation_witness :
    ∃ temp tr,
      buildEmailTemplate ⟨"", "en", "email.welcome",
        [⟨"en", "Welcome", "<p>Hello</p>"⟩, ⟨"es", "Bienvenido", "<p>Hola</p>"⟩]⟩ =
        some temp ∧
      temp.DefaultLanguage = "en" ∧ temp.Name = "Custom" ∧ temp.Type_ = "email.welcome" ∧
      mapIndex temp.Translations "en" = some tr ∧
      temp.Subject = tr.Subject ∧ temp.Template = tr.Template ∧
      ∃ t ∈ [(⟨"en", "Welcome", "<p>Hello</p>"⟩ : Translation),
            ⟨"es", "Bienvenido", "<p>Hola</p>"⟩], t.language = "en" ∧
        tr.Subject = t.subject ∧ tr.Template = t.template :=
  buildEmailTemplate_uses_default_translation
    ⟨"", "en", "email.welcome",
      [⟨"en", "Welcome", "<p>Hello</p>"⟩, ⟨"es", "Bienvenido", "<p>Hola</p>"⟩]⟩
    ⟨⟨"en", "Welcome", "<p>Hello</p>"⟩, by decide, rfl⟩

/-- C20: `buildEmailTemplate` returns a template if and only if some entry of the
translations set has language equal to `default_language`. For every resource data with
no such entry, the empty set included, `trans[default_language]` is nil, the function
panics instead of returning, and neither Create nor Update makes an API call. -/
theorem buildEmailTemplate_defined_iff (d : TemplateEmailData) (m : EmailAPI) :
    ((∃ temp, buildEmailTemplate d = some temp) ↔
      ∃ t ∈ d.translations, t.language = d.default_language) ∧
    ((¬ ∃ t ∈ d.translations, t.language = d.default_language) →
      mapIndex (buildTranslations d.translations []) d.default_language = none ∧
      buildEmailTemplate d = none ∧
      (resourceTemplateEmailCreate d m).ret = none ∧
      (resourceTemplateEmailCreate d m).calls = [] ∧
      (resourceTemplateEmailUpdate d m).ret = none ∧
      (resourceTemplateEmailUpdate d m).calls = []) := by
  have hmiss : (¬ ∃ t ∈ d.translations, t.language = d.default_language) →
      mapIndex (buildTranslations d.translations []) d.default_language = none := by
    intro hno
    rw [mapIndex_buildTranslations_of_not_mem d.translations [] d.default_language
      (fun t ht hl => hno ⟨t, ht, hl⟩)]
    rfl
  have hnone : (¬ ∃ t ∈ d.translations, t.language = d.default_language) →
      buildEmailTemplate d = none := by
    intro hno
    unfold buildEmailTemplate
    simp only [hmiss hno]
  refine ⟨⟨?_, ?_⟩, ?_⟩
  · rintro ⟨temp, htemp⟩
    by_contra hno
    rw [hnone hno] at htemp
    exact Option.noConfusion htemp
  · intro h
    obtain ⟨temp, _, _, htemp, _⟩ := buildEmailTemplate_has_template d h
    exact ⟨temp, htemp⟩
  · intro hno
    refine ⟨hmiss hno, hnone hno, ?_, ?_, ?_, ?_⟩ <;>
      simp [resourceTemplateEmailCreate, resourceTemplateEmailUpdate, hnone hno]

/-- C20 at a concrete input: an empty translations set. -/
theorem buildEmailTemplate_defined_iff_witness :
    mapIndex (buildTranslations [] []) "en" = none ∧
    buildEmailTemplate ⟨"", "en", "email.welcome", []⟩ = none ∧
    (resourceTemplateEmailCreate ⟨"", "en", "email.welcome", []⟩ apiEmpty).ret = none ∧
    (resourceTemplateEmailCreate ⟨"", "en", "email.welcome", []⟩ apiEmpty).calls = [] ∧
    (resourceTemplateEmailUpdate ⟨"", "en", "email.welcome", []⟩ apiEmpty).ret = none ∧
    (resourceTemplateEmailUpdate ⟨"", "en", "email.welcome", []⟩ apiEmpty).calls = [] :=
  (buildEmailTemplate_defined_iff ⟨"", "en", "email.welcome", []⟩ apiEmpty).2 (by decide)

/-! ## Email template: translations round trip -/

/-- Assigning a key the map does not have adds the pair at the end. -/
theorem mapAssign_of_not_mem (tm : TranslationMap) (key : String) (val : EmailTranslation)
    (h : key ∉ tm.map Prod.fst) : mapAssign tm key val = tm ++ [(key, val)] := by
  induction tm with
  | nil => rfl
  | cons kv more ih =>
    obtain ⟨k, v⟩ := kv
    have hk : ¬ k = key := fun hk => h (by simp [hk])
    have hmore : key ∉ more.map Prod.fst := fun hm => h (by simp at hm ⊢; exact Or.inr hm)
    simp [mapAssign, hk, ih hmore]

/-- On entries with pairwise distinct languages, none of them a key of the map so far,
the loop of `buildEmailTemplate` adds one pair per entry. -/
theorem buildTranslations_of_distinct (l : List Translation) (acc : TranslationMap)
    (hnd : (l.map Translation.language).Nodup)
    (hacc : ∀ t ∈ l, t.language ∉ acc.map Prod.fst) :
    buildTranslations l acc =
      acc ++ l.map fun t => (t.language, { Subject := t.subject, Template := t.template }) := by
  induction l generalizing acc with
  | nil => simp [buildTranslations]
  | cons t rest ih =>
    rw [List.map_cons, List.nodup_cons] at hnd
    obtain ⟨hnot, hrest⟩ := hnd
    have ht : t.language ∉ acc.map Prod.fst := hacc t (List.mem_cons_self _ _)
    rw [buildTranslations, mapAssign_of_not_mem acc _ _ ht, ih _ hrest]
    · simp
    · intro u hu hmem
      rw [List.map_append, List.mem_append] at hmem
      rcases hmem with hmem | hmem
      · exact hacc u (List.mem_cons_of_mem _ hu) hmem
      · have hul : u.language = t.language := by simpa using hmem
        exact hnot (hul ▸ List.mem_map_of_mem Translation.language hu)

/-- The map of a template `buildEmailTemplate` returns is the one its loop built. -/
theorem buildEmailTemplate_translations (d : TemplateEmailData) (temp : EmailTemplate)
    (h : buildEmailTemplate d = some temp) :
    temp.Translations = buildTranslations d.translations [] := by
  unfold buildEmailTemplate at h
  simp only [] at h
  split at h
  · exact Option.noConfusion h
  · rw [← Option.some.inj h]

/-- Flattening the pairs made from a list of entries gives the entries back. -/
theorem flattenEmailTranslations_pairs (l : List Translation) :
    flattenEmailTranslations
      (l.map fun t => (t.language, { Subject := t.subject, Template := t.template })) = l := by
  induction l with
  | nil => rfl
  | cons t rest ih =>
    unfold flattenEmailTranslations at ih ⊢
    rw [List.map_cons, List.map_cons, ih]

/-- C21: for every translations set whose entries have pairwise distinct languages and
which has an entry in `default_language`, `buildEmailTemplate` returns a template, and
flattening its `Translations` yields exactly the triples of the original set; the map
has one key per entry: its keys are pairwise distinct, as many as the entries, and they
are the languages of the entries. -/
theorem translations_round_trip (d : TemplateEmailData)
    (hnd : (d.translations.map Translation.language).Nodup)
    (hdef : ∃ t ∈ d.translations, t.language = d.default_language) :
    ∃ temp, buildEmailTemplate d = some temp ∧
      (∀ t, t ∈ flattenEmailTranslations temp.Translations ↔ t ∈ d.translations) ∧
      (flattenEmailTranslations temp.Translations).length = d.translations.length ∧
      (temp.Translations.map Prod.fst).Nodup ∧
      temp.Translations.length = d.translations.length ∧
      ∀ key, key ∈ temp.Translations.map Prod.fst ↔
        ∃ t ∈ d.translations, t.language = key := by
  obtain ⟨temp, _, _, htemp, _⟩ := buildEmailTemplate_has_template d hdef
  have hmap : temp.Translations =
      d.translations.map fun t =>
        (t.language, { Subject := t.subject, Template := t.template }) := by
    rw [buildEmailTemplate_translations d temp htemp,
      buildTranslations_of_distinct d.translations [] hnd (by simp)]
    simp
  have hkeys : temp.Translations.map Prod.fst = d.translations.map Translation.language := by
    rw [hmap, List.map_map]
    rfl
  refine ⟨temp, htemp, ?_, ?_, ?_, ?_, ?_⟩
  · intro t
    rw [hmap, flattenEmailTranslations_pairs]
  · rw [hmap, flattenEmailTranslations_pairs]
  · rw [hkeys]
    exact hnd
  · rw [hmap, List.length_map]
  · intro key
    rw [hkeys, List.mem_map]

/-- C21 at a concrete input: an English and a Spanish translation with default language
`en`. -/
theorem translations_round_trip_witness :
    ∃ temp,
      buildEmailTemplate ⟨"", "en", "email.welcome",
        [⟨"en", "Welcome", "<p>Hello</p>"⟩, ⟨"es", "Bienvenido", "<p>Hola</p>"⟩]⟩ =
        some temp ∧
      (∀ t, t ∈ flattenEmailTranslations temp.Translations ↔
        t ∈ [(⟨"en", "Welcome", "<p>Hello</p>"⟩ : Translation),
          ⟨"es", "Bienvenido", "<p>Hola</p>"⟩]) ∧
      (flattenEmailTranslations temp.Translations).length = 2 ∧
      (temp.Translations.map Prod.fst).Nodup ∧
      temp.Translations.length = 2 ∧
      ∀ key, key ∈ temp.Translations.map Prod.fst ↔
        ∃ t ∈ [(⟨"en", "Welcome", "<p>Hello</p>"⟩ : Translation),
          ⟨"es", "Bienvenido", "<p>Hola</p>"⟩], t.language = key :=
  translations_round_trip
    ⟨"", "en", "email.welcome",
      [⟨"en", "Welcome", "<p>Hello</p>"⟩, ⟨"es", "Bienvenido", "<p>Hola</p>"⟩]⟩
    (by decide) ⟨⟨"en", "Welcome", "<p>Hello</p>"⟩, by decide, rfl⟩

/-! ## Email template: Read -/

/-- The helper `suppressErrorOn404` returns nil exactly when the response is a 404 or
there was no error. -/
theorem suppressErrorOn404_eq_none_iff (resp : Option Nat) (err : Error) :
    suppressErrorOn404 resp err = none ↔ resp = some 404 ∨ err = none := by
  unfold suppressErrorOn404
  by_cases h : resp = some 404
  · simp [h]
  · simp [h]

/-- C22: given that the GET does not fail with a non-404 error, Read returns no
diagnostics. When the returned template is nil or its `Id` is `default`, Read sets the
resource ID to the empty string and leaves `translations`, `default_language` and `type`
as they were; otherwise it keeps the ID and sets `translations` to
`flattenEmailTranslations` of the returned translations and `default_language` to the
returned `DefaultLanguage`. So a resource that had an ID loses it exactly when the
template is nil or the default one. -/
theorem read_drops_exactly_without_custom_template (d : TemplateEmailData) (m : EmailAPI)
    (hget : (m.GetEmailTemplate d.Id).2.1 = some 404 ∨ (m.GetEmailTemplate d.Id).2.2 = none) :
    (resourceTemplateEmailRead d m).ret = some [] ∧
    (resourceTemplateEmailRead d m).calls = [EmailCall.Get d.Id] ∧
    (((m.GetEmailTemplate d.Id).1 = none ∨
        (m.GetEmailTemplate d.Id).1.map EmailTemplate.Id = some "default") →
      (resourceTemplateEmailRead d m).d.Id = "" ∧
      (resourceTemplateEmailRead d m).d.translations = d.translations ∧
      (resourceTemplateEmailRead d m).d.default_language = d.default_language ∧
      (resourceTemplateEmailRead d m).d.type = d.type) ∧
    (∀ temp, (m.GetEmailTemplate d.Id).1 = some temp → temp.Id ≠ "default" →
      (resourceTemplateEmailRead d m).d.Id = d.Id ∧
      (resourceTemplateEmailRead d m).d.translations =
        flattenEmailTranslations temp.Translations ∧
      (resourceTemplateEmailRead d m).d.default_language = temp.DefaultLanguage ∧
      (resourceTemplateEmailRead d m).d.type = d.type) ∧
    (d.Id ≠ "" →
      ((resourceTemplateEmailRead d m).d.Id = "" ↔
        ((m.GetEmailTemplate d.Id).1 = none ∨
          (m.GetEmailTemplate d.Id).1.map EmailTemplate.Id = some "default"))) := by
  have hs := (suppressErrorOn404_eq_none_iff _ _).2 hget
  cases htemp : (m.GetEmailTemplate d.Id).1 with
  | none =>
    unfold resourceTemplateEmailRead
    simp only [hs, htemp]
    simp [TemplateEmailData.SetId, TemplateEmailData.Id]
  | some temp =>
    by_cases hid : temp.Id = "default"
    · unfold resourceTemplateEmailRead
      simp only [hs, htemp]
      simp [hid, TemplateEmailData.SetId, TemplateEmailData.Id]
    · unfold resourceTemplateEmailRead
      simp only [hs, htemp]
      simp [hid, TemplateEmailData.Id]

/-- C22 at concrete inputs: a GET answered with 404 and no template, and a GET answered
with a custom template. -/
theorem read_drops_exactly_without_custom_template_witness :
    ((resourceTemplateEmailRead
        ⟨"email.welcome", "en", "email.welcome", [⟨"en", "Welcome", "<p>Hello</p>"⟩]⟩
        apiEmpty).d.Id = "" ↔
      ((apiEmpty.GetEmailTemplate "email.welcome").1 = none ∨
        (apiEmpty.GetEmailTemplate "email.welcome").1.map EmailTemplate.Id =
          some "default")) ∧
    ((resourceTemplateEmailRead
        ⟨"email.welcome", "en", "email.welcome", [⟨"en", "Welcome", "<p>Hello</p>"⟩]⟩
        (apiWith ⟨"tmpl1", "es", "Custom", "email.welcome",
          [("es", ⟨"Bienvenido", "<p>Hola</p>"⟩)], "Bienvenido", "<p>Hola</p>"⟩)).d.Id =
        "email.welcome" ∧
      (resourceTemplateEmailRead
        ⟨"email.welcome", "en", "email.welcome", [⟨"en", "Welcome", "<p>Hello</p>"⟩]⟩
        (apiWith ⟨"tmpl1", "es", "Custom", "email.welcome",
          [("es", ⟨"Bienvenido", "<p>Hola</p>"⟩)], "Bienvenido", "<p>Hola</p>"⟩)).d.translations =
        flattenEmailTranslations [("es", ⟨"Bienvenido", "<p>Hola</p>"⟩)] ∧
      (resourceTemplateEmailRead
        ⟨"email.welcome", "en", "email.welcome", [⟨"en", "Welcome", "<p>Hello</p>"⟩]⟩
        (apiWith ⟨"tmpl1", "es", "Custom", "email.welcome",
          [("es", ⟨"Bienvenido", "<p>Hola</p>"⟩)], "Bienvenido", "<p>Hola</p>"⟩)).d.default_language =
        "es" ∧
      (resourceTemplateEmailRead
        ⟨"email.welcome", "en", "email.welcome", [⟨"en", "Welcome", "<p>Hello</p>"⟩]⟩
        (apiWith ⟨"tmpl1", "es", "Custom", "email.welcome",
          [("es", ⟨"Bienvenido", "<p>Hola</p>"⟩)], "Bienvenido", "<p>Hola</p>"⟩)).d.type =
        "email.welcome") :=
  ⟨(read_drops_exactly_without_custom_template
      ⟨"email.welcome", "en", "email.welcome", [⟨"en", "Welcome", "<p>Hello</p>"⟩]⟩
      apiEmpty (Or.inl rfl)).2.2.2.2 (by decide),
   (read_drops_exactly_without_custom_template
      ⟨"email.welcome", "en", "email.welcome", [⟨"en", "Welcome", "<p>Hello</p>"⟩]⟩
      (apiWith ⟨"tmpl1", "es", "Custom", "email.welcome",
        [("es", ⟨"Bienvenido", "<p>Hola</p>"⟩)], "Bienvenido", "<p>Hola</p>"⟩)
      (Or.inr rfl)).2.2.2.1 _ rfl (by decide)⟩

/-! ## Destroy check of the sign-on policy rule test -/

/-- C23: for every Terraform state, the result of `appSignOnPolicyRuleExists` is
determined by the first resource of the sign-on policy rule type in iteration order:
nil if its GET answers 404, the error of the GET if it fails otherwise, a `still exists`
error if a rule is returned, nil if the rule is nil. That GET is the only query, so
resources of the type met later are never queried, and a state without such a resource
yields nil with no query. -/
theorem appSignOnPolicyRuleExists_first_only (appSignOnPolicyRule : String)
    (client : String → String → GetRuleAnswer) (s : List ResourceState) :
    appSignOnPolicyRuleExists appSignOnPolicyRule client s =
      match s.find? (fun rs => decide (rs.Type_ = appSignOnPolicyRule)) with
      | none => { ret := none, queries := [] }
      | some rs =>
        { ret :=
            if (client rs.policy_id rs.ID).resp = some 404 then none
            else
              match (client rs.policy_id rs.ID).err with
              | some err => some err
              | none =>
                if (client rs.policy_id rs.ID).rule ≠ none then
                  some ("app sign-on policy rule still exists, ID: " ++ rs.ID ++
                    ", PolicyID: " ++ rs.policy_id)
                else none,
          queries := [(rs.policy_id, rs.ID)] } := by
  induction s with
  | nil => rfl
  | cons rs rest ih =>
    by_cases ht : rs.Type_ = appSignOnPolicyRule
    · unfold appSignOnPolicyRuleExists
      simp only [List.find?, ht, decide_True, ne_eq, not_true_eq_false, if_false]
      by_cases h404 : (client rs.policy_id rs.ID).resp = some 404
      · simp [h404]
      · cases herr : (client rs.policy_id rs.ID).err with
        | some err => simp [h404]
        | none =>
          by_cases hrule : (client rs.policy_id rs.ID).rule = none
          · simp [h404, hrule]
          · simp [h404, hrule]
    · unfold appSignOnPolicyRuleExists
      simp only [List.find?, ht, decide_False, ne_eq, not_false_eq_true, if_true]
      exact ih

/-! ## Create and Delete of a single value, whatever the write answers -/

/-- Create hands the remote state of `appendPostLogoutRedirectURI` on unchanged. -/
theorem resourceAppOAuthPostLogoutRedirectURICreate_m (d : ResourceData) (m : Config) :
    (resourceAppOAuthPostLogoutRedirectURICreate d m).m = (appendPostLogoutRedirectURI d m).m := by
  unfold resourceAppOAuthPostLogoutRedirectURICreate resourceAppOAuthPostLogoutRedirectURIRead
  simp only []
  split <;> rfl

/-- The remote list of `appID` after a PUT of the object `x` to `appID`: the list of `x`
when the PUT is accepted, the list as before when it is rejected. -/
theorem updateAppByID_uris (appID : String) (m : Config) (x : OpenIdConnectApplication) :
    (updateAppByID appID m x).2.uris appID =
      match m.putErr appID x with
      | some _ => m.uris appID
      | none => x.PostLogoutRedirectUris := by
  unfold updateAppByID
  cases m.putErr appID x <;> simp [Config.uris]

/-- C1, the claim refuted: `app1` exists with the list `["https://a/logout"]`, the uri
`https://b/logout` is not a member of it and the handle is new, but the remote system
rejects the write, and Create returns an error diagnostic. -/
theorem create_absent_uri_fails_when_write_rejected :
    fetchAppByID "app1" (remotePutFails (app1 ["https://a/logout"]) "rejected")
      NewOpenIdConnectApplication = (none, app1 ["https://a/logout"]) ∧
    (app1 ["https://a/logout"]).Id ≠ "" ∧
    "https://b/logout" ∉ (app1 ["https://a/logout"]).PostLogoutRedirectUris ∧
    (resourceAppOAuthPostLogoutRedirectURICreate ⟨"", "app1", "https://b/logout"⟩
      (remotePutFails (app1 ["https://a/logout"]) "rejected")).ret ≠ [] := by
  decide

/-- C1 as amended: for every remote state in which the application `app_id` exists with a
post-logout redirect list `L` whose entries are URIs, none of them the empty string, and
every uri `u` that is not a member of `L`, Create on a new handle (empty resource ID)
invokes the remote write exactly once, on `app_id`, with the fetched object whose list is
`L` followed by `u` as its last element. It returns no diagnostics when that write is
accepted, the remote list then being `L` followed by `u`, and the error diagnostic of the
write when it is rejected. -/
theorem create_absent_uri_appended (appID u : String) (m : Config)
    (a : OpenIdConnectApplication)
    (hf : fetchAppByID appID m NewOpenIdConnectApplication = (none, a))
    (hid : a.Id ≠ "")
    (hempty : "" ∉ a.PostLogoutRedirectUris)
    (hu : u ∉ a.PostLogoutRedirectUris) :
    writes (resourceAppOAuthPostLogoutRedirectURICreate ⟨"", appID, u⟩ m).trace =
      [(appID, { a with PostLogoutRedirectUris := a.PostLogoutRedirectUris ++ [u] })] ∧
    List.count u (a.PostLogoutRedirectUris ++ [u]) = 1 ∧
    (m.putErr appID { a with PostLogoutRedirectUris := a.PostLogoutRedirectUris ++ [u] } =
        none →
      (resourceAppOAuthPostLogoutRedirectURICreate ⟨"", appID, u⟩ m).ret = [] ∧
      (resourceAppOAuthPostLogoutRedirectURICreate ⟨"", appID, u⟩ m).m.uris appID = a.PostLogoutRedirectUris ++ [u]) ∧
    (∀ e,
      m.putErr appID { a with PostLogoutRedirectUris := a.PostLogoutRedirectUris ++ [u] } =
        some e →
      (resourceAppOAuthPostLogoutRedirectURICreate ⟨"", appID, u⟩ m).ret =
        diag.Errorf ("failed to create post logout redirect URI: " ++ e)) := by
  have hc : ¬ contains a.PostLogoutRedirectUris (ResourceData.Id ⟨"", appID, u⟩) = true :=
    fun h => hempty ((contains_iff _ _).1 h)
  have happ := appendPostLogoutRedirectURI_found ⟨"", appID, u⟩ m a hf hid
  rw [if_neg hc] at happ
  refine ⟨?_, ?_, ?_, ?_⟩
  · rw [resourceAppOAuthPostLogoutRedirectURICreate_trace, happ]
    simp [writes]
  · rw [List.count_append, List.count_eq_zero_of_not_mem hu]
    simp
  · intro hp
    constructor
    · rw [resourceAppOAuthPostLogoutRedirectURICreate_ret, happ]
      simp only [updateAppByID_fst, hp]
    · rw [resourceAppOAuthPostLogoutRedirectURICreate_m, happ]
      simp only [updateAppByID_uris, hp]
  · intro e hp
    rw [resourceAppOAuthPostLogoutRedirectURICreate_ret, happ]
    simp only [updateAppByID_fst, hp]

/-- C1 as amended, at the input of the end-to-end scenario: `app1` holds
`["https://a/logout"]` and `https://b/logout` is created. -/
theorem create_absent_uri_appended_witness :
    writes (resourceAppOAuthPostLogoutRedirectURICreate ⟨"", "app1", "https://b/logout"⟩
      (remoteOf (app1 ["https://a/logout"]))).trace =
      [("app1", { app1 ["https://a/logout"] with
        PostLogoutRedirectUris :=
          (app1 ["https://a/logout"]).PostLogoutRedirectUris ++ ["https://b/logout"] })] ∧
    (resourceAppOAuthPostLogoutRedirectURICreate ⟨"", "app1", "https://b/logout"⟩
      (remoteOf (app1 ["https://a/logout"]))).ret = [] ∧
    (resourceAppOAuthPostLogoutRedirectURICreate ⟨"", "app1", "https://b/logout"⟩
      (remoteOf (app1 ["https://a/logout"]))).m.uris "app1" =
      (app1 ["https://a/logout"]).PostLogoutRedirectUris ++ ["https://b/logout"] :=
  ⟨(create_absent_uri_appended "app1" "https://b/logout"
      (remoteOf (app1 ["https://a/logout"])) (app1 ["https://a/logout"])
      (by decide) (by decide) (by decide) (by decide)).1,
   (create_absent_uri_appended "app1" "https://b/logout"
      (remoteOf (app1 ["https://a/logout"])) (app1 ["https://a/logout"])
      (by decide) (by decide) (by decide) (by decide)).2.2.1 rfl⟩

/-- C5, the claim refuted: `app1` exists with the list
`["https://a/logout", "https://b/logout"]` and the resource ID `https://a/logout` occurs
in it, but the remote system rejects the write, and Delete returns an error
diagnostic. -/
theorem delete_present_fails_when_write_rejected :
    fetchAppByID "app1"
      (remotePutFails (app1 ["https://a/logout", "https://b/logout"]) "rejected")
      NewOpenIdConnectApplication = (none, app1 ["https://a/logout", "https://b/logout"]) ∧
    (app1 ["https://a/logout", "https://b/logout"]).Id ≠ "" ∧
    "https://a/logout" ∈
      (app1 ["https://a/logout", "https://b/logout"]).PostLogoutRedirectUris ∧
    (resourceAppOAuthPostLogoutRedirectURIDelete ⟨"https://a/logout", "app1", "https://a/logout"⟩
      (remotePutFails (app1 ["https://a/logout", "https://b/logout"]) "rejected")).ret ≠
      [] := by
  decide

/-- C5 as amended: when the application exists with list `L` and the resource ID `v` of
the handle occurs in `L`, Delete invokes the remote write exactly once, on `app_id`, with
the fetched object whose list is `L` minus the first occurrence of `v`: `L` splits as
`l₁ ++ v :: l₂` with `v` not in `l₁`, and the list written is `l₁ ++ l₂`. It returns no
diagnostics when that write is accepted and the error diagnostic of the write when it is
rejected. -/
theorem delete_present_writes_without_first_occurrence (d : ResourceData) (m : Config)
    (a : OpenIdConnectApplication)
    (hf : fetchAppByID d.app_id m NewOpenIdConnectApplication = (none, a))
    (hid : a.Id ≠ "")
    (hmem : d.Id ∈ a.PostLogoutRedirectUris) :
    ∃ l₁ l₂, a.PostLogoutRedirectUris = l₁ ++ d.Id :: l₂ ∧ d.Id ∉ l₁ ∧
      writes (resourceAppOAuthPostLogoutRedirectURIDelete d m).trace =
        [(d.app_id, { a with PostLogoutRedirectUris := l₁ ++ l₂ })] ∧
      (m.putErr d.app_id { a with PostLogoutRedirectUris := l₁ ++ l₂ } = none →
        (resourceAppOAuthPostLogoutRedirectURIDelete d m).ret = []) ∧
      (∀ e, m.putErr d.app_id { a with PostLogoutRedirectUris := l₁ ++ l₂ } = some e →
        (resourceAppOAuthPostLogoutRedirectURIDelete d m).ret =
          diag.Errorf ("failed to delete post logout redirect URI: " ++ e)) := by
  obtain ⟨l₁, l₂, hnot, hsplit, herase⟩ := List.exists_erase_eq hmem
  have hrem : remove a.PostLogoutRedirectUris d.Id = l₁ ++ l₂ := by
    rw [remove_eq_erase, herase]
  have hdel := resourceAppOAuthPostLogoutRedirectURIDelete_present d m a hf hid ((contains_iff _ _).2 hmem)
  rw [hrem] at hdel
  refine ⟨l₁, l₂, hsplit, hnot, ?_, ?_, ?_⟩
  · rw [hdel]
    simp [writes]
  · intro hp
    rw [hdel]
    simp only [hp]
  · intro e hp
    rw [hdel]
    simp only [hp]

/-- C5 as amended, at the input of the claim:
`L = ["https://a/logout", "https://b/logout"]` and `v = "https://a/logout"`. -/
theorem delete_present_writes_without_first_occurrence_witness :
    ∃ l₁ l₂, (app1 ["https://a/logout", "https://b/logout"]).PostLogoutRedirectUris =
        l₁ ++ "https://a/logout" :: l₂ ∧ "https://a/logout" ∉ l₁ ∧
      writes (resourceAppOAuthPostLogoutRedirectURIDelete ⟨"https://a/logout", "app1", "https://a/logout"⟩
        (remoteOf (app1 ["https://a/logout", "https://b/logout"]))).trace =
        [("app1", { app1 ["https://a/logout", "https://b/logout"] with
            PostLogoutRedirectUris := l₁ ++ l₂ })] ∧
      ((remoteOf (app1 ["https://a/logout", "https://b/logout"])).putErr "app1"
          { app1 ["https://a/logout", "https://b/logout"] with
            PostLogoutRedirectUris := l₁ ++ l₂ } = none →
        (resourceAppOAuthPostLogoutRedirectURIDelete ⟨"https://a/logout", "app1", "https://a/logout"⟩
          (remoteOf (app1 ["https://a/logout", "https://b/logout"]))).ret = []) ∧
      (∀ e, (remoteOf (app1 ["https://a/logout", "https://b/logout"])).putErr "app1"
          { app1 ["https://a/logout", "https://b/logout"] with
            PostLogoutRedirectUris := l₁ ++ l₂ } = some e →
        (resourceAppOAuthPostLogoutRedirectURIDelete ⟨"https://a/logout", "app1", "https://a/logout"⟩
          (remoteOf (app1 ["https://a/logout", "https://b/logout"]))).ret =
          diag.Errorf ("failed to delete post logout redirect URI: " ++ e)) :=
  delete_present_writes_without_first_occurrence
    ⟨"https://a/logout", "app1", "https://a/logout"⟩
    (remoteOf (app1 ["https://a/logout", "https://b/logout"]))
    (app1 ["https://a/logout", "https://b/logout"])
    (by decide) (by decide) (by decide)

/-! ## Delete followed by Create -/

end Okta
